import Mathlib

/-!
Shallow embedding of `Source/Scene/Cesium3DTilesetTraversal.js`: the per-frame
level-of-detail tile-selection algorithm of a 3D tileset.

Conventions of the embedding:
* Tiles are identified by natural numbers; the tree structure (`parent`,
  `children`) and all external collaborator results that are fixed for one
  frame (culling masks, distances, the viewer-request-volume test, the
  content-visibility test) are stored as per-tile oracle fields.
* JavaScript numbers are modelled as exact rationals (`ℚ`); frame numbers as
  integers (`ℤ`).
* Mutation of tiles and of the tileset's frame-scoped collections is modelled
  by explicit state passing: every traversal function takes and returns a
  `Tileset`.
* The unbounded `while` loops over explicit stacks/queues are modelled with a
  fuel parameter; running out of fuel returns the state reached so far.
-/

/-- `CullingVolume.MASK_OUTSIDE` (external culling primitive constant). -/
def MASK_OUTSIDE : Nat := 4294967295

/-- `CullingVolume.MASK_INSIDE` (external culling primitive constant). -/
def MASK_INSIDE : Nat := 0

/-- `CullingVolume.MASK_INDETERMINATE` (external culling primitive constant). -/
def MASK_INDETERMINATE : Nat := 2147483647

/-- `Intersect.OUTSIDE` (external culling primitive constant). -/
def INTERSECT_OUTSIDE : Int := -1

/-- `CesiumMath.EPSILON7 = 1e-7`, the positive floor applied to the distance in
`getScreenSpaceError`. -/
def EPSILON7 : ℚ := 1 / 10000000

/-- `Cesium3DTileRefine`: the tile refinement modes read by the traversal. -/
inductive Refine where
  | ADD : Refine
  | REPLACE : Refine
deriving DecidableEq, Repr

/-- Modelled from the spec: content state of a tile
(`{UNLOADED, LOADING, AVAILABLE, EXPIRED}`); the tile class itself
(`Cesium3DTile.js`) is not part of the sources, only its getters
`contentUnloaded` / `contentAvailable` / `contentExpired` are read by the
traversal. Proxy-only (EMPTY) content is modelled by the separate
`hasEmptyContent` flag, exactly the attribute the traversal reads. -/
inductive ContentState where
  | UNLOADED : ContentState
  | LOADING : ContentState
  | AVAILABLE : ContentState
  | EXPIRED : ContentState
deriving DecidableEq, Repr

/-- A tile: static tree data, per-frame external oracles (culling, distance),
and the transient per-frame fields written by the traversal. -/
structure Tile where
  /- static tree structure and configuration -/
  parent : Option Nat
  children : List Nat
  geometricError : ℚ
  refine : Refine
  contentState : ContentState
  hasEmptyContent : Bool
  hasTilesetContent : Bool
  /-- `tile._optimChildrenWithinParent === Cesium3DTileOptimizationHint.USE_OPTIMIZATION` -/
  _optimChildrenWithinParent : Bool
  _depth : Nat
  /- frame-fixed external oracles -/
  /-- result of `tile.insideViewerRequestVolume(frameState)` -/
  insideViewerRequestVolume : Bool
  /-- result of `tile.visibility(frameState, parentVisibilityPlaneMask)` as a
  function of the parent's plane mask -/
  visibilityFn : Nat → Nat
  /-- result of `tile.contentVisibility(frameState)` -/
  contentVisibility : Int
  /-- result of `tile.distanceToTile(frameState)` -/
  distanceToTile : ℚ
  /-- result of `tile.distanceToTileCenter(frameState)` -/
  distanceToTileCenter : ℚ
  /- content/styling fields (the content object is folded into the tile) -/
  featurePropertiesDirty : Bool
  lastStyleTime : ℚ
  /- transient per-frame fields -/
  _distanceToCamera : ℚ
  _centerZDepth : ℚ
  _screenSpaceError : ℚ
  _visibilityPlaneMask : Nat
  _touchedFrame : Int
  _visitedFrame : Int
  _lastSelectedFrameNumber : Int
  selected : Bool
  _finalResolution : Bool
  _refines : Bool
  _ancestorWithContentAvailable : Option Nat
  _priority : ℚ

/-- `tile.contentUnloaded` -/
def Tile.contentUnloaded (t : Tile) : Bool := t.contentState == ContentState.UNLOADED

/-- `tile.contentAvailable` -/
def Tile.contentAvailable (t : Tile) : Bool := t.contentState == ContentState.AVAILABLE

/-- `tile.contentExpired` -/
def Tile.contentExpired (t : Tile) : Bool := t.contentState == ContentState.EXPIRED

/-- The per-frame view state read by the traversal: frame number, projection
mode, viewport, and the frustum quantities used by `getScreenSpaceError`.
When the real frustum has an `_offCenterFrustum` the fields hold the
off-center frustum's values (the substitution the code performs). -/
structure FrameState where
  frameNumber : Int
  mode2D : Bool
  orthographicFrustum : Bool
  frustumTop : ℚ
  frustumBottom : ℚ
  frustumRight : ℚ
  frustumLeft : ℚ
  drawingBufferWidth : ℚ
  drawingBufferHeight : ℚ
  sseDenominator : ℚ

/-- The tileset: configuration, the tile store, and the frame-scoped
collections rebuilt by every `selectTiles` call. The external bounded cache is
modelled by the list of tiles touched this frame (`cacheTouches`), reset by
`_cache.reset()`. -/
structure Tileset where
  debugFreezeFrame : Bool
  _maximumScreenSpaceError : ℚ
  baseScreenSpaceError : ℚ
  _geometricError : ℚ
  _skipLevelOfDetail : Bool
  immediatelyLoadDesiredLevelOfDetail : Bool
  loadSiblings : Bool
  skipLevels : Nat
  skipScreenSpaceErrorFactor : ℚ
  dynamicScreenSpaceError : Bool
  dynamicScreenSpaceErrorFactor : ℚ
  /-- Modelled from the spec: `CesiumMath.fog(distance, computedDensity)`, the
  distance-based fog attenuation (`CesiumMath` is not among the sources); kept
  as the tileset's attenuation function of the clamped distance. -/
  fogAttenuation : ℚ → ℚ
  /-- `tileset._root` -/
  rootTile : Nat
  tiles : Nat → Tile
  _desiredTiles : List Nat
  _selectedTiles : List Nat
  _requestedTiles : List Nat
  _selectedTilesToStyle : List Nat
  _hasMixedContent : Bool
  cacheTouches : List Nat
  statisticsVisited : Nat
  statisticsCulledWithChildrenUnion : Nat

/-- Point update of one tile in the store. -/
def setTile (ts : Tileset) (id : Nat) (f : Tile → Tile) : Tileset :=
  { ts with tiles := fun j => if j = id then f (ts.tiles j) else ts.tiles j }

/-- `getScreenSpaceError(tileset, geometricError, tile, frameState)`. -/
def getScreenSpaceError (ts : Tileset) (geometricError : ℚ) (tile : Tile)
    (fs : FrameState) : ℚ :=
  if geometricError = 0 then 0
  else if fs.mode2D || fs.orthographicFrustum then
    let pixelSize := max (fs.frustumTop - fs.frustumBottom) (fs.frustumRight - fs.frustumLeft) /
      max fs.drawingBufferWidth fs.drawingBufferHeight
    geometricError / pixelSize
  else
    let distance := max tile._distanceToCamera EPSILON7
    let error := geometricError * fs.drawingBufferHeight / (distance * fs.sseDenominator)
    if ts.dynamicScreenSpaceError then
      error - ts.fogAttenuation distance * ts.dynamicScreenSpaceErrorFactor
    else error

/-- `touch(tileset, tile, frameState)`: mark the tile recently used in the
cache and stamp it, at most once per frame. -/
def touch (ts : Tileset) (id : Nat) (fs : FrameState) : Tileset :=
  if (ts.tiles id)._touchedFrame = fs.frameNumber then ts
  else
    let ts1 := { ts with cacheTouches := ts.cacheTouches ++ [id] }
    setTile ts1 id (fun u => { u with _touchedFrame := fs.frameNumber })

/-- The bare assignment `tile._touchedFrame = frameState.frameNumber` that the
call sites perform right after `touch`. -/
def stampTouched (ts : Tileset) (id : Nat) (fs : FrameState) : Tileset :=
  setTile ts id (fun u => { u with _touchedFrame := fs.frameNumber })

/-- `getPriority(tile)`: for a REPLACE-refining parent use the parent's screen
space error so all children load with high priority. -/
def getPriority (ts : Tileset) (id : Nat) : ℚ :=
  let t := ts.tiles id
  match t.parent with
  | some p =>
    if (ts.tiles p).refine == Refine.REPLACE then (ts.tiles p)._screenSpaceError
    else t._screenSpaceError
  | none => t._screenSpaceError

/-- `loadTile(tileset, tile, frameState)`: push a load request unless the tile
was already touched this frame. -/
def loadTile (ts : Tileset) (id : Nat) (fs : FrameState) : Tileset :=
  if (ts.tiles id)._touchedFrame = fs.frameNumber then ts
  else if (ts.tiles id).contentUnloaded || (ts.tiles id).contentExpired then
    let ts1 := setTile ts id (fun u => { u with _priority := getPriority ts id })
    { ts1 with _requestedTiles := ts1._requestedTiles ++ [id] }
  else ts

/-- `visitTile(tileset, tile, frameState)`: stamp the visit, reset transient
selection flags, and record the nearest ancestor with available content
(through REPLACE-refining parents only). `tile.updateExpiration()` is an
external content-manager call with no effect on the fields this module reads,
so it has no counterpart here. -/
def visitTile (ts : Tileset) (id : Nat) (fs : FrameState) : Tileset :=
  let t := ts.tiles id
  if t._visitedFrame = fs.frameNumber then ts
  else
    let ancestor : Option Nat :=
      match t.parent with
      | some p =>
        if (ts.tiles p).refine == Refine.REPLACE && (ts.tiles p).contentAvailable then some p
        else (ts.tiles p)._ancestorWithContentAvailable
      | none => none
    let ts1 := setTile ts id (fun u =>
      { u with _visitedFrame := fs.frameNumber, selected := false,
               _finalResolution := false, _ancestorWithContentAvailable := ancestor })
    { ts1 with statisticsVisited := ts1.statisticsVisited + 1 }

/-- `updateTile(tileset, tile, frameState)`: recompute distance, screen space
error and the visibility plane mask (seeded with the parent's mask); returns
whether the tile is visible. -/
def updateTile (ts : Tileset) (id : Nat) (fs : FrameState) : Tileset × Bool :=
  let t := ts.tiles id
  let parentVisibilityPlaneMask : Nat :=
    match t.parent with
    | some p => (ts.tiles p)._visibilityPlaneMask
    | none => MASK_INDETERMINATE
  let distanceToCamera := t.distanceToTile
  let centerZDepth := t.distanceToTileCenter
  let sse := getScreenSpaceError ts t.geometricError
    { t with _distanceToCamera := distanceToCamera } fs
  let visibilityPlaneMask := t.visibilityFn parentVisibilityPlaneMask
  let visible := visibilityPlaneMask != MASK_OUTSIDE && t.insideViewerRequestVolume
  let ts1 := setTile ts id (fun u =>
    { u with _distanceToCamera := distanceToCamera, _centerZDepth := centerZDepth,
             _screenSpaceError := sse,
             _visibilityPlaneMask := if visible then visibilityPlaneMask else MASK_OUTSIDE })
  (ts1, visible)

/-- `updateChildren(tileset, tile, frameState)`: update every child's
visibility, returning whether any child is visible. -/
def updateChildren (ts : Tileset) (id : Nat) (fs : FrameState) : Tileset × Bool :=
  (ts.tiles id).children.foldl
    (fun (a : Tileset × Bool) cid =>
      let r := updateTile a.1 cid fs
      (r.1, a.2 || r.2))
    (ts, false)

/-- `getVisibility(tileset, tile, maximumScreenSpaceError, frameState)`. -/
def getVisibility (ts : Tileset) (id : Nat) (maxSSE : ℚ) (fs : FrameState) :
    Tileset × Bool :=
  let t := ts.tiles id
  if t._visibilityPlaneMask = MASK_OUTSIDE then (ts, false)
  else if t.hasTilesetContent && t.contentExpired then (ts, false)
  else
    let parentAddMeets : Bool :=
      match t.parent with
      | some p =>
        (ts.tiles p).refine == Refine.ADD &&
          decide (getScreenSpaceError ts (ts.tiles p).geometricError t fs ≤ maxSSE)
      | none => false
    if parentAddMeets then (ts, false)
    else
      let replace := t.refine == Refine.REPLACE
      let useOptimization := t._optimChildrenWithinParent
      let meetsSSE := decide (t._screenSpaceError ≤ maxSSE)
      let r :=
        if (!meetsSSE || useOptimization) && t.children.length > 0 then
          updateChildren ts id fs
        else (ts, true)
      if replace && useOptimization && !r.2 then
        ({ r.1 with statisticsCulledWithChildrenUnion :=
            r.1.statisticsCulledWithChildrenUnion + 1 }, false)
      else (r.1, true)

/-- `updateVisibility(tileset, tile, maximumScreenSpaceError, frameState)`:
cached by the per-frame touched stamp. -/
def updateVisibility (ts : Tileset) (id : Nat) (maxSSE : ℚ) (fs : FrameState) :
    Tileset × Bool :=
  if (ts.tiles id)._touchedFrame = fs.frameNumber then
    (ts, (ts.tiles id)._visibilityPlaneMask != MASK_OUTSIDE)
  else
    let r := getVisibility ts id maxSSE fs
    let ts1 := setTile r.1 id (fun u =>
      { u with _visibilityPlaneMask := if r.2 then u._visibilityPlaneMask else MASK_OUTSIDE })
    (ts1, (ts1.tiles id)._visibilityPlaneMask != MASK_OUTSIDE)

/-- Loop of `executeInternalBaseTraversal`: depth-first,
visibility-agnostic probe that checks whether all nearest descendants with
content of an empty/proxy subtree are loaded. -/
def executeInternalBaseTraversalLoop (fs : FrameState) (maxSSE : ℚ) :
    Nat → Tileset → List Nat → Bool → Tileset × Bool
  | 0, ts, _, acc => (ts, acc)
  | _ + 1, ts, [], acc => (ts, acc)
  | fuel + 1, ts, id :: stack, acc =>
    let t := ts.tiles id
    let traverse := (t.hasEmptyContent || t.hasTilesetContent) &&
      t.children.length > 0 && decide (maxSSE < t._screenSpaceError)
    let acc1 := if !traverse && !t.contentAvailable then false else acc
    if traverse then
      let r := t.children.foldl
        (fun (a : Tileset × List Nat) cid =>
          let u := updateVisibility a.1 cid maxSSE fs
          let ts2 := loadTile u.1 cid fs
          let ts3 := touch ts2 cid fs
          let ts4 := stampTouched ts3 cid fs
          (ts4, cid :: a.2))
        (ts, stack)
      executeInternalBaseTraversalLoop fs maxSSE fuel r.1 r.2 acc1
    else
      executeInternalBaseTraversalLoop fs maxSSE fuel ts stack acc1

/-- `executeInternalBaseTraversal(tileset, root, maximumScreenSpaceError,
frameState)`. -/
def executeInternalBaseTraversal (ts : Tileset) (rootId : Nat) (maxSSE : ℚ)
    (fs : FrameState) (fuel : Nat) : Tileset × Bool :=
  executeInternalBaseTraversalLoop fs maxSSE fuel ts [rootId] true

/-- Body of the children loop of `executeBaseTraversal` for one child:
update visibility, load/touch for REPLACE (or visible ADD) children, run the
internal probe when refinement is still possible, and push visible children.
The accumulator carries (state, refines, stack). -/
def baseTraversalChildStep (fs : FrameState) (maxSSE : ℚ) (fuel : Nat)
    (add replace : Bool) (a : Tileset × Bool × List Nat) (cid : Nat) :
    Tileset × Bool × List Nat :=
  let u := updateVisibility a.1 cid maxSSE fs
  let visible := u.2
  let tsB :=
    if replace || (add && visible) then
      stampTouched (touch (loadTile u.1 cid fs) cid fs) cid fs
    else u.1
  let rc :=
    if a.2.1 && replace then
      if (tsB.tiles cid).hasEmptyContent || (tsB.tiles cid).hasTilesetContent then
        executeInternalBaseTraversal tsB cid maxSSE fs fuel
      else (tsB, (tsB.tiles cid).contentAvailable)
    else (tsB, a.2.1)
  (rc.1, rc.2, if visible then cid :: a.2.2 else a.2.2)

/-- One iteration of the `executeBaseTraversal` while loop for the popped
tile `id`: visit the tile, decide whether to traverse, process the children,
record `_refines`, and collect the tile as a leaf or as a desired additive
tile. Returns (state, stack, leaves, fullyRefined). -/
def executeBaseTraversalStep (fs : FrameState) (maxSSE : ℚ) (fuel : Nat)
    (ts : Tileset) (id : Nat) (stack leaves : List Nat) (fr : Bool) :
    Tileset × List Nat × List Nat × Bool :=
  let add := (ts.tiles id).refine == Refine.ADD
  let replace := (ts.tiles id).refine == Refine.REPLACE
  let ts1 := visitTile ts id fs
  let t := ts1.tiles id
  let traverse := t.children.length > 0 && decide (maxSSE < t._screenSpaceError)
  let replacementWithContent := replace && t.contentAvailable
  let parentRefines :=
    match t.parent with
    | some p => (ts1.tiles p)._refines
    | none => true
  let r :=
    if traverse then
      t.children.foldl (baseTraversalChildStep fs maxSSE fuel add replace)
        (ts1, traverse && parentRefines, stack)
    else (ts1, traverse && parentRefines, stack)
  let refines := r.2.1
  let ts3 := setTile r.1 id (fun u => { u with _refines := refines })
  let leaves1 :=
    if !refines && parentRefines && replacementWithContent then leaves ++ [id] else leaves
  let fr1 :=
    if !refines && parentRefines && replacementWithContent then fr && !traverse else fr
  let ts4 :=
    if add && (ts3.tiles id).contentAvailable then
      { ts3 with _desiredTiles := ts3._desiredTiles ++ [id] }
    else ts3
  (ts4, r.2.2, leaves1, fr1)

/-- Loop of `executeBaseTraversal`: depth-first traversal that loads all
visible tiles above the error threshold; REPLACE leaves that cannot refine
land in the leaves list, ADD tiles with content land in `_desiredTiles`.
Carries (state, stack, leaves, fullyRefined). -/
def executeBaseTraversalLoop (fs : FrameState) (maxSSE : ℚ) :
    Nat → Tileset → List Nat → List Nat → Bool → Tileset × List Nat × Bool
  | 0, ts, _, leaves, fr => (ts, leaves, fr)
  | _ + 1, ts, [], leaves, fr => (ts, leaves, fr)
  | fuel + 1, ts, id :: stack, leaves, fr =>
    let b := executeBaseTraversalStep fs maxSSE fuel ts id stack leaves fr
    executeBaseTraversalLoop fs maxSSE fuel b.1 b.2.1 b.2.2.1 b.2.2.2

/-- `executeBaseTraversal(tileset, root, maximumScreenSpaceError, frameState)`;
also returns the leaves list and the fullyRefined flag. -/
def executeBaseTraversal (ts : Tileset) (rootId : Nat) (maxSSE : ℚ)
    (fs : FrameState) (fuel : Nat) : Tileset × List Nat × Bool :=
  executeBaseTraversalLoop fs maxSSE fuel ts [rootId] [] true

/-- `selectTile(tileset, tile, frameState)`: commit a tile to
`_selectedTiles` when its content is available and it passes the final
visibility check (fully inside the frustum, or content bounds not outside). -/
def selectTile (ts : Tileset) (id : Nat) (fs : FrameState) : Tileset :=
  let t := ts.tiles id
  if t.contentAvailable &&
      (t._visibilityPlaneMask == MASK_INSIDE || t.contentVisibility != INTERSECT_OUTSIDE) then
    let ts1 := { ts with _selectedTiles := ts._selectedTiles ++ [id] }
    let ts2 :=
      if t.featurePropertiesDirty then
        let tsA := setTile ts1 id (fun u =>
          { u with featurePropertiesDirty := false, lastStyleTime := 0 })
        { tsA with _selectedTilesToStyle := tsA._selectedTilesToStyle ++ [id] }
      else if t._lastSelectedFrameNumber ≠ fs.frameNumber - 1 then
        { ts1 with _selectedTilesToStyle := ts1._selectedTilesToStyle ++ [id] }
      else ts1
    setTile ts2 id (fun u => { u with _lastSelectedFrameNumber := fs.frameNumber })
  else ts

/-- `selectBaseTraversal(tileset, root, frameState)`: run the base traversal,
then select its leaves, then the additive tiles collected in
`_desiredTiles`. -/
def selectBaseTraversal (ts : Tileset) (rootId : Nat) (fs : FrameState)
    (fuel : Nat) : Tileset :=
  let r := executeBaseTraversal ts rootId ts._maximumScreenSpaceError fs fuel
  let ts2 := r.2.1.foldl (fun a id => selectTile a id fs) r.1
  ts2._desiredTiles.foldl (fun a id => selectTile a id fs) ts2

/-- `reachedSkippingThreshold(tileset, tile)`. -/
def reachedSkippingThreshold (ts : Tileset) (id : Nat) : Bool :=
  let t := ts.tiles id
  let skipLevels := if ts._skipLevelOfDetail then ts.skipLevels else 0
  let factor := if ts._skipLevelOfDetail then ts.skipScreenSpaceErrorFactor else 1
  !ts.immediatelyLoadDesiredLevelOfDetail && t.contentUnloaded &&
    (match t._ancestorWithContentAvailable with
     | some aid =>
       (aid != id) &&
         decide (t._screenSpaceError < (ts.tiles aid)._screenSpaceError / factor) &&
         decide ((ts.tiles aid)._depth + skipLevels < t._depth)
     | none => false)

/-- Loop of `executeInternalSkipTraversal`: depth-first descent that continues
until the skipping threshold is reached; carries (state, stack, next-level
queue). Note the source touches an ADD tile before calling `loadTile` on it,
and that the sibling loop's bound is `children.length` (both transcribed). -/
def executeInternalSkipTraversalLoop (fs : FrameState) (maxSSE : ℚ) :
    Nat → Tileset → List Nat → List Nat → Tileset × List Nat
  | 0, ts, _, queue => (ts, queue)
  | _ + 1, ts, [], queue => (ts, queue)
  | fuel + 1, ts, id :: stack, queue =>
    let add := (ts.tiles id).refine == Refine.ADD
    let replace := (ts.tiles id).refine == Refine.REPLACE
    let ts1 := visitTile ts id fs
    let t := ts1.tiles id
    let traverse := (t.children.length > 0 && decide (maxSSE < t._screenSpaceError)) ||
      !reachedSkippingThreshold ts1 id
    let ts2 :=
      if add then
        let a := stampTouched (loadTile (touch ts1 id fs) id fs) id fs
        if (a.tiles id).contentAvailable then
          { a with _desiredTiles := a._desiredTiles ++ [id] }
        else a
      else ts1
    let r :=
      if traverse then
        let b := stampTouched (touch ts2 id fs) id fs
        (b.tiles id).children.foldl
          (fun (a : Tileset × List Nat) cid =>
            let u := updateVisibility a.1 cid maxSSE fs
            (u.1, if u.2 then cid :: a.2 else a.2))
          (b, stack)
      else (ts2, stack)
    let ts3 := r.1
    let p :=
      if !traverse && replace then
        let ts4 :=
          if ts3.loadSiblings then
            match (ts3.tiles id).parent with
            | some pid =>
              ((ts3.tiles pid).children.take (ts3.tiles id).children.length).foldl
                (fun a sid => stampTouched (touch (loadTile a sid fs) sid fs) sid fs) ts3
            | none => ts3
          else
            stampTouched (touch (loadTile ts3 id fs) id fs) id fs
        ({ ts4 with _desiredTiles := ts4._desiredTiles ++ [id] }, queue ++ [id])
      else (ts3, queue)
    executeInternalSkipTraversalLoop fs maxSSE fuel p.1 r.2 p.2

/-- `executeInternalSkipTraversal(tileset, root, maximumScreenSpaceError,
queue, frameState)`. -/
def executeInternalSkipTraversal (ts : Tileset) (rootId : Nat) (maxSSE : ℚ)
    (queue : List Nat) (fs : FrameState) (fuel : Nat) : Tileset × List Nat :=
  executeInternalSkipTraversalLoop fs maxSSE fuel ts [rootId] queue

/-- Loop of `executeSkipTraversal`: breadth-first with two alternating level
queues; each tile of the current level seeds an internal skip traversal. -/
def executeSkipTraversalLoop (fs : FrameState) (maxSSE : ℚ) :
    Nat → Tileset → List Nat → Tileset
  | 0, ts, _ => ts
  | _ + 1, ts, [] => ts
  | fuel + 1, ts, queue1 =>
    let r := queue1.foldl
      (fun (a : Tileset × List Nat) id =>
        executeInternalSkipTraversal a.1 id maxSSE a.2 fs (fuel + 1))
      (ts, [])
    executeSkipTraversalLoop fs maxSSE fuel r.1 r.2

/-- `markDesiredTilesForSelection(tileset, frameState)`. The source body is
broken mid-edit: it dereferences an undeclared variable `original`, so
executing it on a non-empty `_desiredTiles` throws a `ReferenceError`. It is
unreachable from `selectTiles` (the dispatch always picks the base traversal),
and no claim depends on its result, so it is modelled as the identity. -/
def markDesiredTilesForSelection (ts : Tileset) (_fs : FrameState) : Tileset := ts

/-- `traverseAndSelect(tileset, root, frameState)`: the function definition is
commented out in the source, so the call sites would throw a
`ReferenceError`. Unreachable from `selectTiles`; modelled as the identity. -/
def traverseAndSelect (ts : Tileset) (_rootId : Nat) (_fs : FrameState) : Tileset := ts

/-- `selectSkipTraversal(tileset, root, frameState)`. -/
def selectSkipTraversal (ts : Tileset) (rootId : Nat) (fs : FrameState)
    (fuel : Nat) : Tileset :=
  let ts1 := executeSkipTraversalLoop fs ts._maximumScreenSpaceError fuel ts [rootId]
  let ts2 := markDesiredTilesForSelection ts1 fs
  traverseAndSelect ts2 rootId fs

/-- `selectBaseAndSkipTraversal(tileset, root, frameState)`: base traversal up
to the coarse threshold, its leaves seeding the skip traversal. -/
def selectBaseAndSkipTraversal (ts : Tileset) (rootId : Nat) (fs : FrameState)
    (fuel : Nat) : Tileset :=
  let baseSSE := max ts.baseScreenSpaceError ts._maximumScreenSpaceError
  let r := executeBaseTraversal ts rootId baseSSE fs fuel
  let ts1 := executeSkipTraversalLoop fs ts._maximumScreenSpaceError fuel r.1 r.2.1
  let ts2 := markDesiredTilesForSelection ts1 fs
  traverseAndSelect ts2 rootId fs

/-- The three traversal strategies of the dispatch in `selectTiles`. -/
inductive Strategy where
  | base : Strategy
  | skip : Strategy
  | baseAndSkip : Strategy
deriving DecidableEq, Repr

/-- The strategy chosen by `selectTiles` (source lines 88-97): the line
`tileset._skipLevelOfDetail = false` (annotated `// TODO - remove`) runs
before the three-way dispatch on `_skipLevelOfDetail` and
`immediatelyLoadDesiredLevelOfDetail`. -/
def dispatchedStrategy (ts : Tileset) : Strategy :=
  let ts1 := { ts with _skipLevelOfDetail := false }
  if !ts1._skipLevelOfDetail then Strategy.base
  else if ts1.immediatelyLoadDesiredLevelOfDetail then Strategy.skip
  else Strategy.baseAndSkip

/-- The reset block at the top of `selectTiles`: the frame-scoped collections
are emptied, `_hasMixedContent` cleared, and `_cache.reset()` called. -/
def resetFrameCollections (ts : Tileset) : Tileset :=
  { ts with _desiredTiles := [], _selectedTiles := [], _requestedTiles := [],
            _selectedTilesToStyle := [], _hasMixedContent := false,
            cacheTouches := [] }

/-- `Cesium3DTilesetTraversal.selectTiles(tileset, frameState)`: the per-frame
entry point. The trailing `trim` calls on the scratch buffers only shrink
backing storage and have no counterpart here. -/
def selectTiles (ts : Tileset) (fs : FrameState) (fuel : Nat) : Tileset :=
  if ts.debugFreezeFrame then ts
  else
    let maxSSE := ts._maximumScreenSpaceError
    let ts1 := resetFrameCollections ts
    let rootId := ts1.rootTile
    let u := updateTile ts1 rootId fs
    let v := if u.2 then updateVisibility u.1 rootId maxSSE fs else (u.1, false)
    if !v.2 then v.1
    else if decide (getScreenSpaceError v.1 v.1._geometricError (v.1.tiles rootId) fs ≤ maxSSE) then
      v.1
    else
      let ts3 := stampTouched (touch (loadTile v.1 rootId fs) rootId fs) rootId fs
      let ts4 := { ts3 with _skipLevelOfDetail := false }
      match dispatchedStrategy ts3 with
      | Strategy.base => selectBaseTraversal ts4 rootId fs fuel
      | Strategy.skip => selectSkipTraversal ts4 rootId fs fuel
      | Strategy.baseAndSkip => selectBaseAndSkipTraversal ts4 rootId fs fuel

/-!
Concrete example states used by the concrete-scenario theorems and by
witnesses.
-/

/-- Baseline tile for the concrete examples: a REPLACE leaf with available
content, fully inside the frustum, at distance 1 from the camera, with all
per-frame stamps strictly below frame 0. -/
def tile0 : Tile :=
  { parent := none, children := [], geometricError := 0, refine := Refine.REPLACE,
    contentState := ContentState.AVAILABLE, hasEmptyContent := false,
    hasTilesetContent := false, _optimChildrenWithinParent := false, _depth := 0,
    insideViewerRequestVolume := true, visibilityFn := fun _ => MASK_INSIDE,
    contentVisibility := 1, distanceToTile := 1, distanceToTileCenter := 1,
    featurePropertiesDirty := false, lastStyleTime := 1,
    _distanceToCamera := 0, _centerZDepth := 0, _screenSpaceError := 0,
    _visibilityPlaneMask := MASK_INDETERMINATE, _touchedFrame := -1, _visitedFrame := -1,
    _lastSelectedFrameNumber := -5, selected := false, _finalResolution := false,
    _refines := false, _ancestorWithContentAvailable := none, _priority := 0 }

/-- A perspective view at frame 0 with viewport height 2 and
`sseDenominator = 1`, so a tile of geometric error `g` at distance 1 has
screen space error `2 * g`. -/
def fs0 : FrameState :=
  { frameNumber := 0, mode2D := false, orthographicFrustum := false,
    frustumTop := 1, frustumBottom := -1, frustumRight := 1, frustumLeft := -1,
    drawingBufferWidth := 2, drawingBufferHeight := 2, sseDenominator := 1 }

/-- Baseline tileset: error budget 16, tileset-level geometric error 10
(screen space error 20 at distance 1), every tile id mapped to `tile0`. -/
def ts0 : Tileset :=
  { debugFreezeFrame := false, _maximumScreenSpaceError := 16, baseScreenSpaceError := 1024,
    _geometricError := 10, _skipLevelOfDetail := false,
    immediatelyLoadDesiredLevelOfDetail := false, loadSiblings := false, skipLevels := 1,
    skipScreenSpaceErrorFactor := 16, dynamicScreenSpaceError := false,
    dynamicScreenSpaceErrorFactor := 4, fogAttenuation := fun _ => 0,
    rootTile := 0, tiles := fun _ => tile0,
    _desiredTiles := [], _selectedTiles := [], _requestedTiles := [],
    _selectedTilesToStyle := [], _hasMixedContent := false, cacheTouches := [],
    statisticsVisited := 0, statisticsCulledWithChildrenUnion := 0 }

/-- Root of the spec's base-traversal scenario: geometric error 10, REPLACE,
content available, one child. -/
def c4root : Tile := { tile0 with children := [1], geometricError := 10 }

/-- Child of the scenario: geometric error 0, content unloaded. -/
def c4child : Tile := { tile0 with parent := some 0, contentState := ContentState.UNLOADED }

/-- The scenario tileset: root tile 0, child tile 1,
`maximumScreenSpaceError = 16`, root screen space error 20 at the view
`fs0`. -/
def c4ts : Tileset := { ts0 with tiles := fun id => if id = 0 then c4root else c4child }

/-- Root of the replacement-fallback scenario: REPLACE refinement, two
children, available content, screen space error 200 at the view `fs0`. -/
def c3root : Tile := { tile0 with children := [1, 2], geometricError := 100 }

/-- First child: available content. -/
def c3child1 : Tile := { tile0 with parent := some 0 }

/-- Second child: content not loaded. -/
def c3child2 : Tile :=
  { tile0 with parent := some 0, contentState := ContentState.UNLOADED }

/-- The replacement-fallback scenario tileset: REPLACE root with two leaf
children of which exactly one has available content. -/
def c3ts : Tileset :=
  { ts0 with tiles := fun id =>
      if id = 0 then c3root else if id = 1 then c3child1 else c3child2 }

/-- An ADD-refining variant of the first child. -/
def c3bchild1 : Tile := { c3child1 with refine := Refine.ADD }

/-- The replacement-fallback scenario with an ADD-refining available child:
the child is pushed to `_desiredTiles` and selected alongside the parent. -/
def c3bts : Tileset :=
  { ts0 with tiles := fun id =>
      if id = 0 then c3root else if id = 1 then c3bchild1 else c3child2 }

/-- The screen space error `updateTile` stores for a tile: computed with the
tile's own geometric error at its fresh camera distance. -/
def storedScreenSpaceError (ts : Tileset) (id : Nat) (fs : FrameState) : ℚ :=
  getScreenSpaceError ts (ts.tiles id).geometricError
    { ts.tiles id with _distanceToCamera := (ts.tiles id).distanceToTile } fs

/-- Tileset in which every tile and the tileset itself have geometric error 0
and every content is AVAILABLE. -/
def c2ts : Tileset := { ts0 with _geometricError := 0 }

/-- A single ADDITIVE tile with unloaded content and a fresh touched stamp. -/
def c7tile : Tile := { tile0 with refine := Refine.ADD, contentState := ContentState.UNLOADED }

/-- Tileset holding only `c7tile`. -/
def c7ts : Tileset := { ts0 with tiles := fun _ => c7tile }

/-- Tile at distance `1e-9`, below the `EPSILON7` clamp. -/
def c8t1 : Tile := { tile0 with _distanceToCamera := 1 / 1000000000 }

/-- Tile at distance `1e-8`, also below the `EPSILON7` clamp. -/
def c8t2 : Tile := { tile0 with _distanceToCamera := 1 / 100000000 }

/-- Tileset configured with `skipLevelOfDetail` and
`immediatelyLoadDesiredLevelOfDetail` both on. -/
def c1ts : Tileset :=
  { ts0 with _skipLevelOfDetail := true, immediatelyLoadDesiredLevelOfDetail := true }

/- The arithmetic of `ℚ` must reduce during `decide`-based evaluation of the
model on concrete states; the library marks these operations irreducible for
performance only. -/
attribute [local semireducible] Rat.mul Rat.add Rat.sub Rat.inv

/-- C10: with `debugFreezeFrame` set, `selectTiles` returns before touching
any state: `_desiredTiles`, `_selectedTiles`, `_requestedTiles`,
`_selectedTilesToStyle`, `_hasMixedContent` and every per-tile frame-stamped
field are left unchanged, so the previous frame's selection persists. -/
theorem selectTiles_debugFreezeFrame_leaves_state_unchanged
    (ts : Tileset) (fs : FrameState) (fuel : Nat)
    (h : ts.debugFreezeFrame = true) : selectTiles ts fs fuel = ts := by
  simp [selectTiles, h]

/-- Witness for the freeze-frame theorem at a concrete tileset. -/
theorem selectTiles_debugFreezeFrame_witness :
    ({ ts0 with debugFreezeFrame := true } : Tileset).debugFreezeFrame = true ∧
    selectTiles { ts0 with debugFreezeFrame := true } fs0 3 =
      { ts0 with debugFreezeFrame := true } :=
  ⟨rfl, selectTiles_debugFreezeFrame_leaves_state_unchanged _ fs0 3 rfl⟩

/-- C1: the dispatch of `selectTiles` does not depend on the tileset's
configuration: `c1ts` has `skipLevelOfDetail` and
`immediatelyLoadDesiredLevelOfDetail` both set (the configuration for which
the claim says the skip-only traversal runs), yet the chosen strategy is the
base traversal, because the statement `tileset._skipLevelOfDetail = false`
(annotated `// TODO - remove`) overwrites the flag right before the three-way
dispatch. -/
theorem dispatch_forced_to_base_traversal :
    c1ts._skipLevelOfDetail = true ∧
    c1ts.immediatelyLoadDesiredLevelOfDetail = true ∧
    dispatchedStrategy c1ts = Strategy.base :=
  ⟨rfl, rfl, rfl⟩

/-- C7: a single ADDITIVE tile with unloaded content and a fresh touched
stamp is popped by the internal skip traversal: it is touched (cache touch
recorded, stamp set) but no load request is pushed onto `_requestedTiles`,
because `touch` runs before `loadTile` and the fresh stamp makes `loadTile`
return early. -/
theorem internalSkip_add_tile_touched_but_not_requested :
    c7tile.refine = Refine.ADD ∧
    c7tile.contentUnloaded = true ∧
    c7tile._touchedFrame ≠ fs0.frameNumber ∧
    (executeInternalSkipTraversal c7ts 0 16 [] fs0 5).1.cacheTouches = [0] ∧
    ((executeInternalSkipTraversal c7ts 0 16 [] fs0 5).1.tiles 0)._touchedFrame =
      fs0.frameNumber ∧
    (executeInternalSkipTraversal c7ts 0 16 [] fs0 5).1._requestedTiles = [] := by
  refine ⟨rfl, rfl, by decide, by decide, by decide, by decide⟩

/-- C4: the scenario tileset `c4ts` (root: geometric error 10, REPLACE,
content available; child: geometric error 0, content unloaded; budget 16;
root screen space error 20 at view `fs0`): one `selectTiles` call updates the
child's visibility (mask recomputed from `MASK_INDETERMINATE` to
`MASK_INSIDE`), requests a load for the child, and ends with
`_selectedTiles = [root]`. -/
theorem base_traversal_scenario_selects_root_requests_child :
    c4root.geometricError = 10 ∧ c4root.refine = Refine.REPLACE ∧
    c4root.contentAvailable = true ∧
    c4child.geometricError = 0 ∧ c4child.contentUnloaded = true ∧
    c4child._visibilityPlaneMask = MASK_INDETERMINATE ∧
    c4ts._maximumScreenSpaceError = 16 ∧
    ((selectTiles c4ts fs0 5).tiles 0)._screenSpaceError = 20 ∧
    ((selectTiles c4ts fs0 5).tiles 1)._visibilityPlaneMask = MASK_INSIDE ∧
    (selectTiles c4ts fs0 5)._requestedTiles = [1] ∧
    (selectTiles c4ts fs0 5)._selectedTiles = [0] := by
  refine ⟨rfl, rfl, rfl, rfl, rfl, rfl, rfl, by decide, by decide, by decide, by decide⟩

/-- C2 counterexample: every tile of `c2ts` has geometric error 0 and
AVAILABLE content, the root is visible and its content bounds pass the
content-visibility test, the error budget 16 is positive — yet `selectTiles`
selects nothing (it returns at the "SSE of not rendering the tree" check
before any tile can be selected) and does not visit the root. -/
theorem zero_error_tree_selects_nothing :
    tile0.geometricError = 0 ∧
    tile0.contentAvailable = true ∧
    c2ts.tiles = (fun _ => tile0) ∧
    tile0.visibilityFn MASK_INDETERMINATE ≠ MASK_OUTSIDE ∧
    tile0.insideViewerRequestVolume = true ∧
    tile0.contentVisibility ≠ INTERSECT_OUTSIDE ∧
    0 < c2ts._maximumScreenSpaceError ∧
    (selectTiles c2ts fs0 5)._selectedTiles = [] ∧
    ((selectTiles c2ts fs0 5).tiles c2ts.rootTile)._visitedFrame ≠ fs0.frameNumber := by
  refine ⟨rfl, rfl, rfl, by decide, rfl, by decide, by decide, by decide, by decide⟩

/-- C8 counterexample: at distances `1e-9 < 1e-8`, both below the `EPSILON7`
clamp, `getScreenSpaceError` returns the same value for a positive geometric
error, so the error at the larger distance is not strictly smaller. -/
theorem sse_not_strictly_monotone_below_epsilon :
    c8t1._distanceToCamera < c8t2._distanceToCamera ∧
    (0 : ℚ) < 1 ∧
    ¬ getScreenSpaceError ts0 1 c8t2 fs0 < getScreenSpaceError ts0 1 c8t1 fs0 := by
  refine ⟨by decide, by decide, by decide⟩

/-- C8 amended: for a positive geometric error, positive viewport height and
sseDenominator, a perspective projection, a monotone fog attenuation with
nonnegative factor, and distances `EPSILON7 ≤ d1 < d2` (at or above the clamp
floor), the screen-space error computed by `getScreenSpaceError` at distance
`d2` is strictly below the one at distance `d1`. -/
theorem sse_strictly_decreasing_in_distance
    (ts : Tileset) (fs : FrameState) (t : Tile) (ge d1 d2 : ℚ)
    (hge : 0 < ge) (hh : 0 < fs.drawingBufferHeight) (hs : 0 < fs.sseDenominator)
    (hmode : fs.mode2D = false) (hortho : fs.orthographicFrustum = false)
    (hfog : ∀ a b : ℚ, a ≤ b → ts.fogAttenuation a ≤ ts.fogAttenuation b)
    (hfac : 0 ≤ ts.dynamicScreenSpaceErrorFactor)
    (h1 : EPSILON7 ≤ d1) (h12 : d1 < d2) :
    getScreenSpaceError ts ge { t with _distanceToCamera := d2 } fs <
      getScreenSpaceError ts ge { t with _distanceToCamera := d1 } fs := by
  have hge0 : ¬ ge = 0 := ne_of_gt hge
  have heps : (0:ℚ) < EPSILON7 := by norm_num [EPSILON7]
  have hd1 : 0 < d1 := lt_of_lt_of_le heps h1
  have hmax1 : max d1 EPSILON7 = d1 := max_eq_left h1
  have hmax2 : max d2 EPSILON7 = d2 := max_eq_left (le_trans h1 (le_of_lt h12))
  have hbase : ge * fs.drawingBufferHeight / (d2 * fs.sseDenominator) <
      ge * fs.drawingBufferHeight / (d1 * fs.sseDenominator) :=
    div_lt_div_of_pos_left (mul_pos hge hh) (mul_pos hd1 hs)
      (mul_lt_mul_of_pos_right h12 hs)
  have hfog2 : ts.fogAttenuation d1 * ts.dynamicScreenSpaceErrorFactor ≤
      ts.fogAttenuation d2 * ts.dynamicScreenSpaceErrorFactor :=
    mul_le_mul_of_nonneg_right (hfog d1 d2 (le_of_lt h12)) hfac
  simp only [getScreenSpaceError, hge0, hmode, hortho, if_false, Bool.or_self,
    Bool.false_eq_true, ite_false]
  rw [hmax1, hmax2]
  cases hdyn : ts.dynamicScreenSpaceError with
  | false => simpa [hdyn] using hbase
  | true =>
    simp only [hdyn, if_true]
    calc ge * fs.drawingBufferHeight / (d2 * fs.sseDenominator) -
          ts.fogAttenuation d2 * ts.dynamicScreenSpaceErrorFactor
        ≤ ge * fs.drawingBufferHeight / (d2 * fs.sseDenominator) -
          ts.fogAttenuation d1 * ts.dynamicScreenSpaceErrorFactor :=
          sub_le_sub_left hfog2 _
      _ < ge * fs.drawingBufferHeight / (d1 * fs.sseDenominator) -
          ts.fogAttenuation d1 * ts.dynamicScreenSpaceErrorFactor :=
          sub_lt_sub_right hbase _

/-- Witness for the amended monotonicity at `ge = 1`, `d1 = 1`, `d2 = 2` in
the baseline tileset and view. -/
theorem sse_strictly_decreasing_witness :
    (0:ℚ) < 1 ∧ EPSILON7 ≤ 1 ∧ (1:ℚ) < 2 ∧
    getScreenSpaceError ts0 1 { tile0 with _distanceToCamera := 2 } fs0 <
      getScreenSpaceError ts0 1 { tile0 with _distanceToCamera := 1 } fs0 :=
  ⟨by norm_num, by norm_num [EPSILON7], by norm_num,
   sse_strictly_decreasing_in_distance ts0 fs0 tile0 1 1 2 (by norm_num)
     (by norm_num [fs0]) (by norm_num [fs0]) rfl rfl
     (fun a b _ => le_refl (0:ℚ)) (by norm_num [ts0]) (by norm_num [EPSILON7])
     (by norm_num)⟩

/-! Basic lemmas about the state primitives. -/

theorem setTile_tiles_self (ts : Tileset) (id : Nat) (f : Tile → Tile) :
    (setTile ts id f).tiles id = f (ts.tiles id) := by
  simp [setTile]

theorem setTile_tiles_other (ts : Tileset) (id j : Nat) (f : Tile → Tile)
    (h : j ≠ id) : (setTile ts id f).tiles j = ts.tiles j := by
  simp [setTile, h]

/-! Invariant machinery for the no-duplicate-request claim (C6). -/

/-- Invariant of the request queue: no duplicates, and every requested tile is
stamped with the current frame. -/
def ReqInv (fs : FrameState) (ts : Tileset) : Prop :=
  ts._requestedTiles.Nodup ∧
  ∀ id ∈ ts._requestedTiles, (ts.tiles id)._touchedFrame = fs.frameNumber

theorem reqInv_congr {fs : FrameState} {s t : Tileset} (h : ReqInv fs s)
    (hreq : t._requestedTiles = s._requestedTiles)
    (ht : ∀ j, (t.tiles j)._touchedFrame = (s.tiles j)._touchedFrame ∨
      (t.tiles j)._touchedFrame = fs.frameNumber) : ReqInv fs t := by
  constructor
  · rw [hreq]; exact h.1
  · intro id hid
    rw [hreq] at hid
    rcases ht id with h1 | h1
    · rw [h1]; exact h.2 id hid
    · exact h1

theorem reqInv_foldl_proj {α β : Type} {fs : FrameState} (π : α → Tileset)
    (g : α → β → α) (hg : ∀ a b, ReqInv fs (π a) → ReqInv fs (π (g a b))) :
    ∀ (l : List β) (a : α), ReqInv fs (π a) → ReqInv fs (π (l.foldl g a)) := by
  intro l
  induction l with
  | nil => intro a h; exact h
  | cons x xs ih => intro a h; exact ih _ (hg _ _ h)

theorem reqInv_statVisited {fs : FrameState} {s : Tileset} (n : Nat)
    (h : ReqInv fs s) : ReqInv fs { s with statisticsVisited := n } :=
  reqInv_congr h rfl (fun _ => Or.inl rfl)

theorem reqInv_statCulled {fs : FrameState} {s : Tileset} (n : Nat)
    (h : ReqInv fs s) : ReqInv fs { s with statisticsCulledWithChildrenUnion := n } :=
  reqInv_congr h rfl (fun _ => Or.inl rfl)

theorem reqInv_setDesired {fs : FrameState} {s : Tileset} (l : List Nat)
    (h : ReqInv fs s) : ReqInv fs { s with _desiredTiles := l } :=
  reqInv_congr h rfl (fun _ => Or.inl rfl)

theorem reqInv_setTile_keep {fs : FrameState} {s : Tileset} {id : Nat}
    {f : Tile → Tile} (h : ReqInv fs s)
    (hf : ∀ u, (f u)._touchedFrame = u._touchedFrame) :
    ReqInv fs (setTile s id f) := by
  refine reqInv_congr h rfl ?_
  intro j
  by_cases hj : j = id
  · subst hj; left; rw [setTile_tiles_self, hf]
  · left; rw [setTile_tiles_other _ _ _ _ hj]

theorem reqInv_updateTile {fs : FrameState} {ts : Tileset} {id : Nat}
    (h : ReqInv fs ts) : ReqInv fs (updateTile ts id fs).1 := by
  unfold updateTile
  exact reqInv_setTile_keep h (fun u => rfl)

theorem reqInv_updateChildren {fs : FrameState} {ts : Tileset} {id : Nat}
    (h : ReqInv fs ts) : ReqInv fs (updateChildren ts id fs).1 := by
  unfold updateChildren
  exact reqInv_foldl_proj (α := Tileset × Bool) Prod.fst
    (fun a cid =>
      let r := updateTile a.1 cid fs
      (r.1, a.2 || r.2))
    (fun a b ha => reqInv_updateTile ha) ((ts.tiles id).children) (ts, false) h

theorem reqInv_getVisibility {fs : FrameState} {ts : Tileset} {id : Nat}
    {maxSSE : ℚ} (h : ReqInv fs ts) : ReqInv fs (getVisibility ts id maxSSE fs).1 := by
  simp only [getVisibility]
  split
  · exact h
  · split
    · exact h
    · split
      · exact h
      · split <;> split <;>
          first
            | exact h
            | exact reqInv_updateChildren h

theorem reqInv_updateVisibility {fs : FrameState} {ts : Tileset} {id : Nat}
    {maxSSE : ℚ} (h : ReqInv fs ts) : ReqInv fs (updateVisibility ts id maxSSE fs).1 := by
  unfold updateVisibility
  split
  · exact h
  · exact reqInv_setTile_keep (reqInv_getVisibility h) (fun u => rfl)

theorem reqInv_visitTile {fs : FrameState} {ts : Tileset} {id : Nat}
    (h : ReqInv fs ts) : ReqInv fs (visitTile ts id fs) := by
  simp only [visitTile]
  split
  · exact h
  · exact reqInv_statVisited _ (reqInv_setTile_keep h (fun u => rfl))

theorem reqInv_touch {fs : FrameState} {ts : Tileset} {id : Nat}
    (h : ReqInv fs ts) : ReqInv fs (touch ts id fs) := by
  unfold touch
  split
  · exact h
  · refine reqInv_congr h rfl ?_
    intro j
    by_cases hj : j = id
    · subst hj; right; simp [setTile]
    · left; simp [setTile, hj]

theorem reqInv_stampTouched {fs : FrameState} {ts : Tileset} {id : Nat}
    (h : ReqInv fs ts) : ReqInv fs (stampTouched ts id fs) := by
  unfold stampTouched
  refine reqInv_congr h rfl ?_
  intro j
  by_cases hj : j = id
  · subst hj; right; simp [setTile]
  · left; simp [setTile, hj]

theorem setTile_requestedTiles (ts : Tileset) (id : Nat) (f : Tile → Tile) :
    (setTile ts id f)._requestedTiles = ts._requestedTiles := rfl

theorem setTile_selectedTiles (ts : Tileset) (id : Nat) (f : Tile → Tile) :
    (setTile ts id f)._selectedTiles = ts._selectedTiles := rfl

theorem touch_requested (ts : Tileset) (id : Nat) (fs : FrameState) :
    (touch ts id fs)._requestedTiles = ts._requestedTiles := by
  unfold touch
  split <;> rfl

theorem stampTouched_requested (ts : Tileset) (id : Nat) (fs : FrameState) :
    (stampTouched ts id fs)._requestedTiles = ts._requestedTiles := rfl

theorem stamp_touch_touched_self (ts : Tileset) (id : Nat) (fs : FrameState) :
    ((stampTouched (touch ts id fs) id fs).tiles id)._touchedFrame = fs.frameNumber := by
  simp [stampTouched, setTile]

theorem stamp_touch_touched_other (ts : Tileset) (id j : Nat) (fs : FrameState)
    (hj : j ≠ id) :
    ((stampTouched (touch ts id fs) id fs).tiles j)._touchedFrame =
      (ts.tiles j)._touchedFrame := by
  unfold touch
  split
  · simp [stampTouched, setTile, hj]
  · simp [stampTouched, setTile, hj]

/-- The `loadTile; touch; tile._touchedFrame = frameNumber` call-site idiom
preserves the request-queue invariant: a pushed tile was untouched, is not yet
in the queue, and ends stamped. -/
theorem reqInv_load_touch_stamp {fs : FrameState} {ts : Tileset} {id : Nat}
    (h : ReqInv fs ts) :
    ReqInv fs (stampTouched (touch (loadTile ts id fs) id fs) id fs) := by
  by_cases htf : (ts.tiles id)._touchedFrame = fs.frameNumber
  · have hl : loadTile ts id fs = ts := by unfold loadTile; rw [if_pos htf]
    rw [hl]
    exact reqInv_stampTouched (reqInv_touch h)
  · unfold loadTile
    rw [if_neg htf]
    by_cases hcu : ((ts.tiles id).contentUnloaded || (ts.tiles id).contentExpired) = true
    · rw [if_pos hcu]
      have hmem : id ∉ ts._requestedTiles := fun hm => htf (h.2 id hm)
      constructor
      · rw [stampTouched_requested, touch_requested]
        simp only [List.nodup_append, List.nodup_cons, List.nodup_nil,
          List.disjoint_singleton]
        refine ⟨h.1, ⟨by simp, trivial⟩, ?_⟩
        show id ∉ (setTile ts id fun u => { u with _priority := getPriority ts id })._requestedTiles
        rw [setTile_requestedTiles]
        exact hmem
      · intro x hx
        rw [stampTouched_requested, touch_requested] at hx
        by_cases hxid : x = id
        · subst hxid
          exact stamp_touch_touched_self _ _ _
        · rw [stamp_touch_touched_other _ _ _ _ hxid]
          have hx2 : x ∈ ts._requestedTiles := by
            have : x ∈ (setTile ts id fun u => { u with _priority := getPriority ts id })._requestedTiles ++ [id] := hx
            rw [setTile_requestedTiles] at this
            rcases List.mem_append.mp this with h1 | h1
            · exact h1
            · exact absurd (List.mem_singleton.mp h1) hxid
          have := h.2 x hx2
          show (({ setTile ts id fun u => { u with _priority := getPriority ts id } with
            _requestedTiles := (setTile ts id fun u => { u with _priority := getPriority ts id })._requestedTiles ++ [id] } : Tileset).tiles x)._touchedFrame = fs.frameNumber
          rw [show ∀ s : Tileset, ∀ l, ({ s with _requestedTiles := l } : Tileset).tiles = s.tiles from fun _ _ => rfl]
          rw [setTile_tiles_other _ _ _ _ hxid]
          exact this
    · rw [if_neg hcu]
      exact reqInv_stampTouched (reqInv_touch h)

theorem reqInv_internalBaseLoop {fs : FrameState} {maxSSE : ℚ} :
    ∀ (fuel : Nat) (ts : Tileset) (stack : List Nat) (acc : Bool),
      ReqInv fs ts →
      ReqInv fs (executeInternalBaseTraversalLoop fs maxSSE fuel ts stack acc).1 := by
  intro fuel
  induction fuel with
  | zero => intro ts stack acc h; exact h
  | succ fuel ih =>
    intro ts stack acc h
    cases stack with
    | nil => exact h
    | cons id rest =>
      simp only [executeInternalBaseTraversalLoop]
      split
      · apply ih
        refine reqInv_foldl_proj (α := Tileset × List Nat) Prod.fst _ ?_ _ _ h
        intro a b ha
        exact reqInv_load_touch_stamp (reqInv_updateVisibility ha)
      · exact ih _ _ _ h

theorem reqInv_executeInternalBaseTraversal {fs : FrameState} {ts : Tileset}
    {rootId : Nat} {maxSSE : ℚ} {fuel : Nat} (h : ReqInv fs ts) :
    ReqInv fs (executeInternalBaseTraversal ts rootId maxSSE fs fuel).1 :=
  reqInv_internalBaseLoop fuel ts [rootId] true h

theorem reqInv_baseChildStep {fs : FrameState} {maxSSE : ℚ} {fuel : Nat}
    {add replace : Bool} {a : Tileset × Bool × List Nat} {cid : Nat}
    (h : ReqInv fs a.1) :
    ReqInv fs (baseTraversalChildStep fs maxSSE fuel add replace a cid).1 := by
  have h1 : ReqInv fs (updateVisibility a.1 cid maxSSE fs).1 := reqInv_updateVisibility h
  unfold baseTraversalChildStep
  dsimp only
  split <;> split <;>
    first
      | exact h1
      | exact reqInv_load_touch_stamp h1
      | (split
         · exact reqInv_executeInternalBaseTraversal (reqInv_load_touch_stamp h1)
         · exact reqInv_load_touch_stamp h1)
      | (split
         · exact reqInv_executeInternalBaseTraversal h1
         · exact h1)

theorem reqInv_baseStep {fs : FrameState} {maxSSE : ℚ} {fuel : Nat}
    {ts : Tileset} {id : Nat} {stack leaves : List Nat} {fr : Bool}
    (h : ReqInv fs ts) :
    ReqInv fs (executeBaseTraversalStep fs maxSSE fuel ts id stack leaves fr).1 := by
  unfold executeBaseTraversalStep
  dsimp only
  split <;> split <;>
    first
      | (refine reqInv_setDesired _ ?_
         refine reqInv_setTile_keep ?_ ?_
         · refine reqInv_foldl_proj Prod.fst _ (fun a b ha => reqInv_baseChildStep ha) _ _ ?_
           exact reqInv_visitTile h
         · exact fun u => rfl)
      | (refine reqInv_setDesired _ ?_
         refine reqInv_setTile_keep ?_ ?_
         · exact reqInv_visitTile h
         · exact fun u => rfl)
      | (refine reqInv_setTile_keep ?_ ?_
         · refine reqInv_foldl_proj Prod.fst _ (fun a b ha => reqInv_baseChildStep ha) _ _ ?_
           exact reqInv_visitTile h
         · exact fun u => rfl)
      | (refine reqInv_setTile_keep ?_ ?_
         · exact reqInv_visitTile h
         · exact fun u => rfl)

theorem reqInv_baseLoop {fs : FrameState} {maxSSE : ℚ} :
    ∀ (fuel : Nat) (ts : Tileset) (stack leaves : List Nat) (fr : Bool),
      ReqInv fs ts →
      ReqInv fs (executeBaseTraversalLoop fs maxSSE fuel ts stack leaves fr).1 := by
  intro fuel
  induction fuel with
  | zero => intro ts stack leaves fr h; exact h
  | succ fuel ih =>
    intro ts stack leaves fr h
    cases stack with
    | nil => exact h
    | cons id rest =>
      simp only [executeBaseTraversalLoop]
      exact ih _ _ _ _ (reqInv_baseStep h)

theorem reqInv_setSelected {fs : FrameState} {s : Tileset} (l : List Nat)
    (h : ReqInv fs s) : ReqInv fs { s with _selectedTiles := l } :=
  reqInv_congr h rfl (fun _ => Or.inl rfl)

theorem reqInv_setStyle {fs : FrameState} {s : Tileset} (l : List Nat)
    (h : ReqInv fs s) : ReqInv fs { s with _selectedTilesToStyle := l } :=
  reqInv_congr h rfl (fun _ => Or.inl rfl)

theorem reqInv_setSelectedStyle {fs : FrameState} {s : Tileset} (l m : List Nat)
    (h : ReqInv fs s) :
    ReqInv fs { s with _selectedTiles := l, _selectedTilesToStyle := m } :=
  reqInv_congr h rfl (fun _ => Or.inl rfl)

theorem reqInv_selectTile {fs : FrameState} {ts : Tileset} {id : Nat}
    (h : ReqInv fs ts) : ReqInv fs (selectTile ts id fs) := by
  unfold selectTile
  dsimp only
  split
  · refine reqInv_setTile_keep ?_ ?_
    · split
      · refine reqInv_setStyle _ ?_
        refine reqInv_setTile_keep ?_ ?_
        · refine reqInv_setSelected _ ?_
          exact h
        · exact fun u => rfl
      · split
        · refine reqInv_setSelectedStyle _ _ ?_
          exact h
        · refine reqInv_setSelected _ ?_
          exact h
    · exact fun u => rfl
  · exact h

theorem reqInv_selectBaseTraversal {fs : FrameState} {ts : Tileset}
    {rootId : Nat} {fuel : Nat} (h : ReqInv fs ts) :
    ReqInv fs (selectBaseTraversal ts rootId fs fuel) := by
  unfold selectBaseTraversal executeBaseTraversal
  dsimp only
  refine reqInv_foldl_proj (fun s => s) _ (fun a b ha => reqInv_selectTile ha) _ _ ?_
  refine reqInv_foldl_proj (fun s => s) _ (fun a b ha => reqInv_selectTile ha) _ _ ?_
  exact reqInv_baseLoop _ _ _ _ _ h

theorem reqInv_resetFrameCollections (fs : FrameState) (ts : Tileset) :
    ReqInv fs (resetFrameCollections ts) :=
  ⟨List.nodup_nil, fun id hid => absurd hid (List.not_mem_nil id)⟩

theorem reqInv_selectTiles {ts : Tileset} {fs : FrameState} {fuel : Nat}
    (hdf : ts.debugFreezeFrame = false) : ReqInv fs (selectTiles ts fs fuel) := by
  unfold selectTiles
  simp only [hdf, Bool.false_eq_true, if_false]
  have h1 : ReqInv fs (updateTile (resetFrameCollections ts)
      (resetFrameCollections ts).rootTile fs).1 :=
    reqInv_updateTile (reqInv_resetFrameCollections fs ts)
  have h2 : ∀ u : Tileset, ReqInv fs u →
      ReqInv fs (selectBaseTraversal
        { stampTouched (touch (loadTile u (resetFrameCollections ts).rootTile fs)
            (resetFrameCollections ts).rootTile fs) (resetFrameCollections ts).rootTile fs with
          _skipLevelOfDetail := false } (resetFrameCollections ts).rootTile fs fuel) := by
    intro u hu
    refine reqInv_selectBaseTraversal ?_
    exact reqInv_congr (reqInv_load_touch_stamp hu) rfl (fun _ => Or.inl rfl)
  repeat' split
  all_goals
    first
      | exact reqInv_updateVisibility h1
      | exact h1
      | exact h2 _ (reqInv_updateVisibility h1)
      | exact h2 _ h1
      | simp_all [dispatchedStrategy]

/-- C6: within one `selectTiles` call no tile is pushed onto
`_requestedTiles` more than once, and every requested tile carries the
per-frame touched stamp that guards any further `loadTile` call on it. -/
theorem selectTiles_no_duplicate_requests (ts : Tileset) (fs : FrameState)
    (fuel : Nat) (hdf : ts.debugFreezeFrame = false) :
    (selectTiles ts fs fuel)._requestedTiles.Nodup ∧
    ((selectTiles ts fs fuel)._requestedTiles.all
      (fun id => ((selectTiles ts fs fuel).tiles id)._touchedFrame == fs.frameNumber)) =
      true := by
  have h := @reqInv_selectTiles ts fs fuel hdf
  refine ⟨h.1, ?_⟩
  rw [List.all_eq_true]
  intro id hid
  exact beq_iff_eq.mpr (h.2 id hid)

/-- Witness for the no-duplicate-request theorem at the concrete base
traversal scenario (which requests exactly the child tile once). -/
theorem selectTiles_no_duplicate_requests_witness :
    c4ts.debugFreezeFrame = false ∧
    ((selectTiles c4ts fs0 5)._requestedTiles.Nodup ∧
    ((selectTiles c4ts fs0 5)._requestedTiles.all
      (fun id => ((selectTiles c4ts fs0 5).tiles id)._touchedFrame == fs0.frameNumber)) =
      true) :=
  ⟨rfl, selectTiles_no_duplicate_requests c4ts fs0 5 rfl⟩

/-! Machinery for the selected-tiles invariant (C5). -/

/-- Every committed tile has available content and passed the final
visibility check of `selectTile`. -/
def SelInv (ts : Tileset) : Prop :=
  ∀ id ∈ ts._selectedTiles, (ts.tiles id).contentAvailable = true ∧
    ((ts.tiles id)._visibilityPlaneMask = MASK_INSIDE ∨
      (ts.tiles id).contentVisibility ≠ INTERSECT_OUTSIDE)

theorem selEq_foldl_proj {α β : Type} (π : α → Tileset) (g : α → β → α)
    (hg : ∀ a b, (π (g a b))._selectedTiles = (π a)._selectedTiles) :
    ∀ (l : List β) (a : α), (π (l.foldl g a))._selectedTiles = (π a)._selectedTiles := by
  intro l
  induction l with
  | nil => intro a; rfl
  | cons x xs ih => intro a; rw [List.foldl_cons, ih, hg]

theorem updateTile_selectedTiles (ts : Tileset) (id : Nat) (fs : FrameState) :
    (updateTile ts id fs).1._selectedTiles = ts._selectedTiles := rfl

theorem updateChildren_selectedTiles (ts : Tileset) (id : Nat) (fs : FrameState) :
    (updateChildren ts id fs).1._selectedTiles = ts._selectedTiles := by
  unfold updateChildren
  exact selEq_foldl_proj (α := Tileset × Bool) Prod.fst
    (fun a cid =>
      let r := updateTile a.1 cid fs
      (r.1, a.2 || r.2))
    (fun a b => rfl) ((ts.tiles id).children) (ts, false)

theorem getVisibility_selectedTiles (ts : Tileset) (id : Nat) (maxSSE : ℚ)
    (fs : FrameState) :
    (getVisibility ts id maxSSE fs).1._selectedTiles = ts._selectedTiles := by
  simp only [getVisibility]
  split
  · rfl
  · split
    · rfl
    · split
      · rfl
      · split <;> split <;>
          first
            | rfl
            | exact updateChildren_selectedTiles ts id fs

theorem updateVisibility_selectedTiles (ts : Tileset) (id : Nat) (maxSSE : ℚ)
    (fs : FrameState) :
    (updateVisibility ts id maxSSE fs).1._selectedTiles = ts._selectedTiles := by
  unfold updateVisibility
  split
  · rfl
  · rw [setTile_selectedTiles, getVisibility_selectedTiles]

theorem visitTile_selectedTiles (ts : Tileset) (id : Nat) (fs : FrameState) :
    (visitTile ts id fs)._selectedTiles = ts._selectedTiles := by
  simp only [visitTile]
  split <;> rfl

theorem loadTile_selectedTiles (ts : Tileset) (id : Nat) (fs : FrameState) :
    (loadTile ts id fs)._selectedTiles = ts._selectedTiles := by
  unfold loadTile
  split
  · rfl
  · split <;> rfl

theorem stampTouched_selectedTiles (ts : Tileset) (id : Nat) (fs : FrameState) :
    (stampTouched ts id fs)._selectedTiles = ts._selectedTiles := rfl

theorem touch_selectedTiles (ts : Tileset) (id : Nat) (fs : FrameState) :
    (touch ts id fs)._selectedTiles = ts._selectedTiles := by
  unfold touch
  split <;> rfl

theorem triple_selectedTiles (ts : Tileset) (id : Nat) (fs : FrameState) :
    (stampTouched (touch (loadTile ts id fs) id fs) id fs)._selectedTiles =
      ts._selectedTiles := by
  rw [stampTouched_selectedTiles, touch_selectedTiles, loadTile_selectedTiles]

theorem internalBaseLoop_selectedTiles (fs : FrameState) (maxSSE : ℚ) :
    ∀ (fuel : Nat) (ts : Tileset) (stack : List Nat) (acc : Bool),
      (executeInternalBaseTraversalLoop fs maxSSE fuel ts stack acc).1._selectedTiles =
        ts._selectedTiles := by
  intro fuel
  induction fuel with
  | zero => intro ts stack acc; rfl
  | succ fuel ih =>
    intro ts stack acc
    cases stack with
    | nil => rfl
    | cons id rest =>
      simp only [executeInternalBaseTraversalLoop]
      split
      · rw [ih]
        exact selEq_foldl_proj (α := Tileset × List Nat) Prod.fst _
          (fun a b => by
            dsimp only
            rw [triple_selectedTiles, updateVisibility_selectedTiles])
          _ _
      · exact ih _ _ _

theorem baseChildStep_selectedTiles (fs : FrameState) (maxSSE : ℚ) (fuel : Nat)
    (add replace : Bool) (a : Tileset × Bool × List Nat) (cid : Nat) :
    (baseTraversalChildStep fs maxSSE fuel add replace a cid).1._selectedTiles =
      a.1._selectedTiles := by
  unfold baseTraversalChildStep
  dsimp only
  split <;> split <;>
    first
      | exact updateVisibility_selectedTiles _ _ _ _
      | rw [triple_selectedTiles, updateVisibility_selectedTiles]
      | (split
         · unfold executeInternalBaseTraversal
           rw [internalBaseLoop_selectedTiles, triple_selectedTiles,
             updateVisibility_selectedTiles]
         · rw [triple_selectedTiles, updateVisibility_selectedTiles])
      | (split
         · unfold executeInternalBaseTraversal
           rw [internalBaseLoop_selectedTiles, updateVisibility_selectedTiles]
         · exact updateVisibility_selectedTiles _ _ _ _)

theorem baseStep_selectedTiles (fs : FrameState) (maxSSE : ℚ) (fuel : Nat)
    (ts : Tileset) (id : Nat) (stack leaves : List Nat) (fr : Bool) :
    (executeBaseTraversalStep fs maxSSE fuel ts id stack leaves fr).1._selectedTiles =
      ts._selectedTiles := by
  unfold executeBaseTraversalStep
  dsimp only
  split <;> split <;>
    simp only [setTile] <;>
    first
      | (rw [selEq_foldl_proj Prod.fst
            (baseTraversalChildStep fs maxSSE fuel ((ts.tiles id).refine == Refine.ADD)
              ((ts.tiles id).refine == Refine.REPLACE))
            (fun a b => baseChildStep_selectedTiles fs maxSSE fuel _ _ a b)]
         exact visitTile_selectedTiles ts id fs)
      | exact visitTile_selectedTiles ts id fs

theorem baseLoop_selectedTiles (fs : FrameState) (maxSSE : ℚ) :
    ∀ (fuel : Nat) (ts : Tileset) (stack leaves : List Nat) (fr : Bool),
      (executeBaseTraversalLoop fs maxSSE fuel ts stack leaves fr).1._selectedTiles =
        ts._selectedTiles := by
  intro fuel
  induction fuel with
  | zero => intro ts stack leaves fr; rfl
  | succ fuel ih =>
    intro ts stack leaves fr
    cases stack with
    | nil => rfl
    | cons id rest =>
      simp only [executeBaseTraversalLoop]
      rw [ih, baseStep_selectedTiles]

/-- `selectTile` either leaves `_selectedTiles` unchanged, or appends exactly
the committed tile, which then has available content and passed the final
visibility check. -/
theorem selectTile_selected_characterization (ts : Tileset) (id : Nat)
    (fs : FrameState) :
    (selectTile ts id fs)._selectedTiles = ts._selectedTiles ∨
    ((selectTile ts id fs)._selectedTiles = ts._selectedTiles ++ [id] ∧
      (ts.tiles id).contentAvailable = true ∧
      ((ts.tiles id)._visibilityPlaneMask = MASK_INSIDE ∨
        (ts.tiles id).contentVisibility ≠ INTERSECT_OUTSIDE)) := by
  unfold selectTile
  dsimp only
  split
  · rename_i hg
    rw [Bool.and_eq_true, Bool.or_eq_true] at hg
    right
    refine ⟨?_, hg.1, ?_⟩
    · rw [setTile_selectedTiles]
      split
      · rfl
      · split <;> rfl
    · rcases hg.2 with h1 | h1
      · exact Or.inl (beq_iff_eq.mp h1)
      · exact Or.inr (bne_iff_ne.mp h1)
  · exact Or.inl rfl

/-- The per-tile fields that `SelInv` looks at are untouched by
`selectTile`. -/
theorem selectTile_keeps_fields (ts : Tileset) (id j : Nat) (fs : FrameState) :
    ((selectTile ts id fs).tiles j).contentAvailable = (ts.tiles j).contentAvailable ∧
    ((selectTile ts id fs).tiles j)._visibilityPlaneMask = (ts.tiles j)._visibilityPlaneMask ∧
    ((selectTile ts id fs).tiles j).contentVisibility = (ts.tiles j).contentVisibility := by
  unfold selectTile
  dsimp only
  split
  · by_cases hj : j = id
    · subst hj
      split <;> (try split) <;>
        (refine ⟨?_, ?_, ?_⟩ <;> simp [setTile, Tile.contentAvailable])
    · split <;> (try split) <;>
        (refine ⟨?_, ?_, ?_⟩ <;> simp [setTile, hj])
  · exact ⟨rfl, rfl, rfl⟩

theorem selInv_selectTile {ts : Tileset} {id : Nat} {fs : FrameState}
    (h : SelInv ts) : SelInv (selectTile ts id fs) := by
  intro x hx
  have hk := selectTile_keeps_fields ts id x fs
  rw [hk.1, hk.2.1, hk.2.2]
  rcases selectTile_selected_characterization ts id fs with hc | hc
  · rw [hc] at hx
    exact h x hx
  · rw [hc.1] at hx
    rcases List.mem_append.mp hx with h1 | h1
    · exact h x h1
    · rw [List.mem_singleton.mp h1]
      exact ⟨hc.2.1, hc.2.2⟩

theorem selInv_foldl {fs : FrameState} :
    ∀ (l : List Nat) (ts : Tileset), SelInv ts →
      SelInv (l.foldl (fun a id => selectTile a id fs) ts) := by
  intro l
  induction l with
  | nil => exact fun ts h => h
  | cons x xs ih => intro ts h; exact ih _ (selInv_selectTile h)

theorem selInv_empty {ts : Tileset} (h : ts._selectedTiles = []) : SelInv ts := by
  intro x hx
  rw [h] at hx
  exact absurd hx (List.not_mem_nil x)

theorem selInv_selectBaseTraversal {ts : Tileset} {rootId : Nat}
    {fs : FrameState} {fuel : Nat} (h : ts._selectedTiles = []) :
    SelInv (selectBaseTraversal ts rootId fs fuel) := by
  unfold selectBaseTraversal executeBaseTraversal
  dsimp only
  apply selInv_foldl
  apply selInv_foldl
  apply selInv_empty
  rw [baseLoop_selectedTiles]
  exact h

theorem selInv_selectTiles {ts : Tileset} {fs : FrameState} {fuel : Nat}
    (hdf : ts.debugFreezeFrame = false) : SelInv (selectTiles ts fs fuel) := by
  unfold selectTiles
  simp only [hdf, Bool.false_eq_true, if_false]
  have e1 : (updateTile (resetFrameCollections ts)
      (resetFrameCollections ts).rootTile fs).1._selectedTiles = [] := by
    rw [updateTile_selectedTiles]
    rfl
  have e2 : (updateVisibility (updateTile (resetFrameCollections ts)
      (resetFrameCollections ts).rootTile fs).1 (resetFrameCollections ts).rootTile
      ts._maximumScreenSpaceError fs).1._selectedTiles = [] := by
    rw [updateVisibility_selectedTiles]
    exact e1
  have h2 : ∀ u : Tileset, u._selectedTiles = [] →
      SelInv (selectBaseTraversal
        { stampTouched (touch (loadTile u (resetFrameCollections ts).rootTile fs)
            (resetFrameCollections ts).rootTile fs) (resetFrameCollections ts).rootTile fs with
          _skipLevelOfDetail := false } (resetFrameCollections ts).rootTile fs fuel) := by
    intro u hu
    apply selInv_selectBaseTraversal
    exact (triple_selectedTiles u (resetFrameCollections ts).rootTile fs).trans hu
  repeat' split
  all_goals
    first
      | exact selInv_empty e2
      | exact selInv_empty e1
      | exact h2 _ e2
      | exact h2 _ e1
      | simp_all [dispatchedStrategy]

/-- C5: every tile committed to `_selectedTiles` by a `selectTiles` call has
content in the AVAILABLE state and passed `selectTile`'s final visibility
check: its visibility plane mask is `MASK_INSIDE` (fully inside the frustum,
where the content-bounds test short-circuits) or its content bounds are not
outside the frustum. -/
theorem selectTiles_selected_available_and_content_visible
    (ts : Tileset) (fs : FrameState) (fuel : Nat) (id : Nat)
    (hdf : ts.debugFreezeFrame = false)
    (hid : id ∈ (selectTiles ts fs fuel)._selectedTiles) :
    ((selectTiles ts fs fuel).tiles id).contentAvailable = true ∧
    (((selectTiles ts fs fuel).tiles id)._visibilityPlaneMask = MASK_INSIDE ∨
      ((selectTiles ts fs fuel).tiles id).contentVisibility ≠ INTERSECT_OUTSIDE) :=
  selInv_selectTiles hdf id hid

/-- Witness: the root selected in the concrete base-traversal scenario has
available content and is fully inside the frustum. -/
theorem selectTiles_selected_available_witness :
    c4ts.debugFreezeFrame = false ∧
    0 ∈ (selectTiles c4ts fs0 5)._selectedTiles ∧
    (((selectTiles c4ts fs0 5).tiles 0).contentAvailable = true ∧
    (((selectTiles c4ts fs0 5).tiles 0)._visibilityPlaneMask = MASK_INSIDE ∨
      ((selectTiles c4ts fs0 5).tiles 0).contentVisibility ≠ INTERSECT_OUTSIDE)) :=
  ⟨rfl, by decide,
   selectTiles_selected_available_and_content_visible c4ts fs0 5 0 rfl (by decide)⟩

/-! Characterization lemmas for single traversal steps, used by the
scenario theorems. -/

/-- The parent plane mask that `updateTile` seeds the visibility test with. -/
def parentMask (ts : Tileset) (id : Nat) : Nat :=
  match (ts.tiles id).parent with
  | some p => (ts.tiles p)._visibilityPlaneMask
  | none => MASK_INDETERMINATE

theorem updateTile_snd (ts : Tileset) (id : Nat) (fs : FrameState) :
    (updateTile ts id fs).2 =
      ((ts.tiles id).visibilityFn (parentMask ts id) != MASK_OUTSIDE &&
        (ts.tiles id).insideViewerRequestVolume) := rfl

theorem updateTile_tiles_other (ts : Tileset) (id j : Nat) (fs : FrameState)
    (h : j ≠ id) : (updateTile ts id fs).1.tiles j = ts.tiles j := by
  unfold updateTile
  dsimp only
  rw [setTile_tiles_other _ _ _ _ h]

theorem updateTile_tiles_self (ts : Tileset) (id : Nat) (fs : FrameState) :
    (updateTile ts id fs).1.tiles id =
      { ts.tiles id with
        _distanceToCamera := (ts.tiles id).distanceToTile,
        _centerZDepth := (ts.tiles id).distanceToTileCenter,
        _screenSpaceError := getScreenSpaceError ts (ts.tiles id).geometricError
          { ts.tiles id with _distanceToCamera := (ts.tiles id).distanceToTile } fs,
        _visibilityPlaneMask :=
          if (updateTile ts id fs).2 = true then
            (ts.tiles id).visibilityFn (parentMask ts id)
          else MASK_OUTSIDE } := by
  unfold updateTile
  dsimp only
  rw [setTile_tiles_self]
  rfl

/-- A tileset with the same dynamic-error configuration and a tile with the
same camera distance yield the same screen-space error. -/
theorem getScreenSpaceError_congr (s t : Tileset) (g : ℚ) (a b : Tile)
    (fs : FrameState) (h1 : s.dynamicScreenSpaceError = t.dynamicScreenSpaceError)
    (h2 : s.fogAttenuation = t.fogAttenuation)
    (h3 : s.dynamicScreenSpaceErrorFactor = t.dynamicScreenSpaceErrorFactor)
    (h4 : a._distanceToCamera = b._distanceToCamera) :
    getScreenSpaceError s g a fs = getScreenSpaceError t g b fs := by
  unfold getScreenSpaceError
  rw [h1, h2, h3, h4]

/-- The screen-space error of a zero geometric error is zero. -/
theorem getScreenSpaceError_zero (ts : Tileset) (t : Tile) (fs : FrameState) :
    getScreenSpaceError ts 0 t fs = 0 := by
  unfold getScreenSpaceError
  rw [if_pos rfl]

/-- The "screen-space error of not rendering the tree" computed at source
line 80: the tileset-level geometric error evaluated at the root's distance. -/
def tilesetLevelSSE (ts : Tileset) (fs : FrameState) : ℚ :=
  getScreenSpaceError ts ts._geometricError
    { ts.tiles ts.rootTile with
      _distanceToCamera := (ts.tiles ts.rootTile).distanceToTile } fs

theorem setTile_id (ts : Tileset) (id : Nat) :
    setTile ts id (fun u => u) = ts := by
  unfold setTile
  have h : (fun j => if j = id then ts.tiles j else ts.tiles j) = ts.tiles :=
    funext fun j => by split <;> rfl
  rw [h]

theorem baseLoop_nil (fs : FrameState) (maxSSE : ℚ) (fuel : Nat) (ts : Tileset)
    (leaves : List Nat) (fr : Bool) :
    executeBaseTraversalLoop fs maxSSE fuel ts [] leaves fr = (ts, leaves, fr) := by
  cases fuel <;> rfl

/-- `touch` leaves `_desiredTiles` alone. -/
theorem touch_desiredTiles (ts : Tileset) (id : Nat) (fs : FrameState) :
    (touch ts id fs)._desiredTiles = ts._desiredTiles := by
  unfold touch
  split <;> rfl

/-- `setTile` leaves `_desiredTiles` alone. -/
theorem setTile_desiredTiles (ts : Tileset) (id : Nat) (f : Tile → Tile) :
    (setTile ts id f)._desiredTiles = ts._desiredTiles := rfl

/-- An unvisited root tile: `visitTile` stamps the visit, clears the
selection flags and records no ancestor. -/
theorem visitTile_char (ts : Tileset) (id : Nat) (fs : FrameState)
    (hv : (ts.tiles id)._visitedFrame ≠ fs.frameNumber)
    (hp : (ts.tiles id).parent = none) :
    visitTile ts id fs =
      { setTile ts id (fun u =>
          { u with _visitedFrame := fs.frameNumber, selected := false,
                   _finalResolution := false, _ancestorWithContentAvailable := none })
        with statisticsVisited := ts.statisticsVisited + 1 } := by
  unfold visitTile
  dsimp only
  rw [if_neg hv, hp]
  rfl

/-- `visitTile` only ever rewrites the tile it is given. -/
theorem visitTile_tiles_other (ts : Tileset) (id j : Nat) (fs : FrameState)
    (h : j ≠ id) : (visitTile ts id fs).tiles j = ts.tiles j := by
  unfold visitTile
  dsimp only
  split
  · rfl
  · simp [setTile, h]

/-- `visitTile` leaves `_desiredTiles` alone. -/
theorem visitTile_desiredTiles (ts : Tileset) (id : Nat) (fs : FrameState) :
    (visitTile ts id fs)._desiredTiles = ts._desiredTiles := by
  unfold visitTile
  dsimp only
  split <;> rfl

/-- `selectTile` only ever rewrites the tile it is given. -/
theorem selectTile_tiles_other (ts : Tileset) (id j : Nat) (fs : FrameState)
    (h : j ≠ id) : (selectTile ts id fs).tiles j = ts.tiles j := by
  unfold selectTile
  dsimp only
  split
  · split <;> (try split) <;> simp [setTile, h]
  · rfl

/-- `selectTile` leaves `_desiredTiles` alone. -/
theorem selectTile_desiredTiles (ts : Tileset) (id : Nat) (fs : FrameState) :
    (selectTile ts id fs)._desiredTiles = ts._desiredTiles := by
  unfold selectTile
  dsimp only
  split
  · split <;> (try split) <;> simp [setTile]
  · rfl

/-- When the selection guard holds, `selectTile` appends the tile to
`_selectedTiles`. -/
theorem selectTile_selected_of_guard (ts : Tileset) (id : Nat) (fs : FrameState)
    (h : ((ts.tiles id).contentAvailable &&
      ((ts.tiles id)._visibilityPlaneMask == MASK_INSIDE ||
       (ts.tiles id).contentVisibility != INTERSECT_OUTSIDE)) = true) :
    (selectTile ts id fs)._selectedTiles = ts._selectedTiles ++ [id] := by
  unfold selectTile
  dsimp only
  rw [if_pos h, setTile_selectedTiles]
  split
  · rfl
  · split <;> rfl

/-- A REPLACE leaf (no children worth traversing, available content, root):
one base-traversal step visits it, marks it non-refining, and appends it to
the leaves list. -/
theorem baseStep_leaf_replace (fs : FrameState) (maxSSE : ℚ) (fuel : Nat)
    (ts : Tileset) (id : Nat) (stack leaves : List Nat) (fr : Bool)
    (hv : (ts.tiles id)._visitedFrame ≠ fs.frameNumber)
    (hp : (ts.tiles id).parent = none)
    (hrf : (ts.tiles id).refine = Refine.REPLACE)
    (hca : (ts.tiles id).contentState = ContentState.AVAILABLE)
    (hsse : decide (maxSSE < (ts.tiles id)._screenSpaceError) = false) :
    executeBaseTraversalStep fs maxSSE fuel ts id stack leaves fr =
      (setTile (visitTile ts id fs) id (fun u => { u with _refines := false }),
        stack, leaves ++ [id], fr && true) := by
  unfold executeBaseTraversalStep
  rw [visitTile_char ts id fs hv hp]
  simp [setTile, Tile.contentAvailable, hrf, hca, hsse, hp,
    visitTile_char ts id fs hv hp]

/-- An ADD leaf: one base-traversal step visits it, marks it non-refining,
and appends it to `_desiredTiles`. -/
theorem baseStep_leaf_add (fs : FrameState) (maxSSE : ℚ) (fuel : Nat)
    (ts : Tileset) (id : Nat) (stack leaves : List Nat) (fr : Bool)
    (hv : (ts.tiles id)._visitedFrame ≠ fs.frameNumber)
    (hp : (ts.tiles id).parent = none)
    (hrf : (ts.tiles id).refine = Refine.ADD)
    (hca : (ts.tiles id).contentState = ContentState.AVAILABLE)
    (hsse : decide (maxSSE < (ts.tiles id)._screenSpaceError) = false) :
    executeBaseTraversalStep fs maxSSE fuel ts id stack leaves fr =
      ({ setTile (visitTile ts id fs) id (fun u => { u with _refines := false })
          with _desiredTiles := (visitTile ts id fs)._desiredTiles ++ [id] },
        stack, leaves, fr) := by
  unfold executeBaseTraversalStep
  rw [visitTile_char ts id fs hv hp]
  simp [setTile, Tile.contentAvailable, hrf, hca, hsse, hp,
    visitTile_char ts id fs hv hp]

/-- Claim C2 (amended): in a tree whose tiles all have zero geometric error
and pre-loaded (AVAILABLE) content, with a visible root (frustum and
viewer-request-volume tests pass, child-union optimization off, content not
culled) whose per-frame stamps are stale, a `selectTiles` call with a
positive `maximumScreenSpaceError` budget selects exactly the root when the
tileset-level screen-space error exceeds the budget and selects nothing
otherwise (the early return at the "SSE of not rendering the tree" check);
in both cases every other tile is left untouched. -/
theorem selectTiles_zero_error_root_dichotomy
    (ts : Tileset) (fs : FrameState) (fuel : Nat)
    (hdf : ts.debugFreezeFrame = false)
    (hfuel : 1 ≤ fuel)
    (hpar : (ts.tiles ts.rootTile).parent = none)
    (hge : ∀ id, (ts.tiles id).geometricError = 0)
    (hav : ∀ id, (ts.tiles id).contentState = ContentState.AVAILABLE)
    (hpos : 0 < ts._maximumScreenSpaceError)
    (hvis : (ts.tiles ts.rootTile).visibilityFn MASK_INDETERMINATE ≠ MASK_OUTSIDE)
    (hvrv : (ts.tiles ts.rootTile).insideViewerRequestVolume = true)
    (hopt : (ts.tiles ts.rootTile)._optimChildrenWithinParent = false)
    (hcv : (ts.tiles ts.rootTile).contentVisibility ≠ INTERSECT_OUTSIDE)
    (htf : (ts.tiles ts.rootTile)._touchedFrame ≠ fs.frameNumber)
    (hvf : (ts.tiles ts.rootTile)._visitedFrame ≠ fs.frameNumber) :
    (selectTiles ts fs fuel)._selectedTiles =
      (if ts._maximumScreenSpaceError < tilesetLevelSSE ts fs then [ts.rootTile] else []) ∧
    ∀ id, id ≠ ts.rootTile → (selectTiles ts fs fuel).tiles id = ts.tiles id := by
  have hpm : parentMask (resetFrameCollections ts) ts.rootTile = MASK_INDETERMINATE := by
    unfold parentMask
    rw [show (resetFrameCollections ts).tiles ts.rootTile = ts.tiles ts.rootTile from rfl, hpar]
  have hu2 : (updateTile (resetFrameCollections ts) ts.rootTile fs).2 = true := by
    rw [updateTile_snd, hpm]
    rw [show (resetFrameCollections ts).tiles ts.rootTile = ts.tiles ts.rootTile from rfl]
    rw [hvrv, Bool.and_true]
    exact bne_iff_ne.mpr hvis
  have hT1 : (updateTile (resetFrameCollections ts) ts.rootTile fs).1.tiles ts.rootTile =
      { ts.tiles ts.rootTile with
        _distanceToCamera := (ts.tiles ts.rootTile).distanceToTile,
        _centerZDepth := (ts.tiles ts.rootTile).distanceToTileCenter,
        _screenSpaceError := 0,
        _visibilityPlaneMask := (ts.tiles ts.rootTile).visibilityFn MASK_INDETERMINATE } := by
    rw [updateTile_tiles_self]
    rw [show (resetFrameCollections ts).tiles ts.rootTile = ts.tiles ts.rootTile from rfl]
    rw [hge ts.rootTile, getScreenSpaceError_zero, if_pos hu2, hpm]
  have hgv : getVisibility (updateTile (resetFrameCollections ts) ts.rootTile fs).1
      ts.rootTile ts._maximumScreenSpaceError fs =
      ((updateTile (resetFrameCollections ts) ts.rootTile fs).1, true) := by
    unfold getVisibility
    dsimp only
    rw [hT1]
    dsimp only
    rw [if_neg hvis]
    simp only [Tile.contentExpired, hav ts.rootTile, hpar, hopt]
    have hm : decide (0 ≤ ts._maximumScreenSpaceError) = true := decide_eq_true hpos.le
    simp only [hm, show (ContentState.AVAILABLE == ContentState.EXPIRED) = false from rfl,
      Bool.and_false, Bool.false_eq_true, if_false, Bool.not_true, Bool.false_or,
      Bool.false_and, ite_false]
  have htch1 : ((updateTile (resetFrameCollections ts) ts.rootTile fs).1.tiles
      ts.rootTile)._touchedFrame = (ts.tiles ts.rootTile)._touchedFrame := by
    rw [hT1]
  have hv1 : (updateVisibility (updateTile (resetFrameCollections ts) ts.rootTile fs).1
      ts.rootTile ts._maximumScreenSpaceError fs).1 =
      (updateTile (resetFrameCollections ts) ts.rootTile fs).1 := by
    unfold updateVisibility
    rw [if_neg (fun hcontra => htf (htch1 ▸ hcontra))]
    rw [hgv]
    dsimp only
    exact setTile_id _ _
  have hv2 : (updateVisibility (updateTile (resetFrameCollections ts) ts.rootTile fs).1
      ts.rootTile ts._maximumScreenSpaceError fs).2 = true := by
    unfold updateVisibility
    rw [if_neg (fun hcontra => htf (htch1 ▸ hcontra))]
    rw [hgv]
    dsimp only
    rw [setTile_tiles_self]
    dsimp only
    rw [hT1]
    exact bne_iff_ne.mpr hvis
  have h80 : getScreenSpaceError (updateTile (resetFrameCollections ts) ts.rootTile fs).1
      ((updateTile (resetFrameCollections ts) ts.rootTile fs).1)._geometricError
      ((updateTile (resetFrameCollections ts) ts.rootTile fs).1.tiles ts.rootTile) fs =
      tilesetLevelSSE ts fs := by
    refine getScreenSpaceError_congr _ _ _ _ _ fs rfl rfl rfl ?_
    rw [hT1]
  by_cases hle : tilesetLevelSSE ts fs ≤ ts._maximumScreenSpaceError
  case pos =>
    have hfull : selectTiles ts fs fuel =
        (updateTile (resetFrameCollections ts) ts.rootTile fs).1 := by
      unfold selectTiles
      simp only [hdf, Bool.false_eq_true, if_false,
        show (resetFrameCollections ts).rootTile = ts.rootTile from rfl,
        hu2, if_true, hv1, hv2, Bool.not_true, h80, decide_eq_true hle]
    refine ⟨?_, ?_⟩
    · rw [hfull, updateTile_selectedTiles, if_neg (not_lt.mpr hle)]
      rfl
    · intro j hj
      rw [hfull, updateTile_tiles_other _ _ _ _ hj]
      rfl
  case neg =>
    have hlt : ts._maximumScreenSpaceError < tilesetLevelSSE ts fs := not_le.mp hle
    have hcu : ((updateTile (resetFrameCollections ts) ts.rootTile fs).1.tiles
        ts.rootTile).contentUnloaded = false := by
      rw [hT1]
      simp [Tile.contentUnloaded, hav ts.rootTile]
    have hce : ((updateTile (resetFrameCollections ts) ts.rootTile fs).1.tiles
        ts.rootTile).contentExpired = false := by
      rw [hT1]
      simp [Tile.contentExpired, hav ts.rootTile]
    have hload : loadTile (updateTile (resetFrameCollections ts) ts.rootTile fs).1
        ts.rootTile fs = (updateTile (resetFrameCollections ts) ts.rootTile fs).1 := by
      unfold loadTile
      rw [if_neg (fun hc => htf (htch1 ▸ hc))]
      rw [hcu, hce]
      rfl
    have htouch : touch (updateTile (resetFrameCollections ts) ts.rootTile fs).1
        ts.rootTile fs =
        setTile { (updateTile (resetFrameCollections ts) ts.rootTile fs).1 with
            cacheTouches := (updateTile (resetFrameCollections ts) ts.rootTile
              fs).1.cacheTouches ++ [ts.rootTile] }
          ts.rootTile (fun u => { u with _touchedFrame := fs.frameNumber }) := by
      unfold touch
      rw [if_neg (fun hc => htf (htch1 ▸ hc))]
    have hfull : selectTiles ts fs fuel =
        selectBaseTraversal
          { stampTouched (touch (updateTile (resetFrameCollections ts) ts.rootTile fs).1
              ts.rootTile fs) ts.rootTile fs with _skipLevelOfDetail := false }
          ts.rootTile fs fuel := by
      unfold selectTiles
      simp only [hdf, Bool.false_eq_true, if_false,
        show (resetFrameCollections ts).rootTile = ts.rootTile from rfl,
        hu2, if_true, hv1, hv2, Bool.not_true, h80, decide_eq_false hle, hload,
        dispatchedStrategy]
      rfl
    obtain ⟨k, rfl⟩ : ∃ k, fuel = k + 1 := ⟨fuel - 1, by omega⟩
    have htile5 : ({ stampTouched (touch (updateTile (resetFrameCollections ts) ts.rootTile fs).1
          ts.rootTile fs) ts.rootTile fs with _skipLevelOfDetail := false } : Tileset).tiles ts.rootTile =
        { ts.tiles ts.rootTile with
          _distanceToCamera := (ts.tiles ts.rootTile).distanceToTile,
          _centerZDepth := (ts.tiles ts.rootTile).distanceToTileCenter,
          _screenSpaceError := 0,
          _visibilityPlaneMask := (ts.tiles ts.rootTile).visibilityFn MASK_INDETERMINATE,
          _touchedFrame := fs.frameNumber } := by
      rw [htouch]
      simp only [stampTouched, setTile_tiles_self]
      rw [hT1]
    have htile5a : (stampTouched (touch (updateTile (resetFrameCollections ts) ts.rootTile fs).1
        ts.rootTile fs) ts.rootTile fs).tiles ts.rootTile =
        { ts.tiles ts.rootTile with
          _distanceToCamera := (ts.tiles ts.rootTile).distanceToTile,
          _centerZDepth := (ts.tiles ts.rootTile).distanceToTileCenter,
          _screenSpaceError := 0,
          _visibilityPlaneMask := (ts.tiles ts.rootTile).visibilityFn MASK_INDETERMINATE,
          _touchedFrame := fs.frameNumber } := htile5
    have htile5o : ∀ j, j ≠ ts.rootTile → ({ stampTouched (touch (updateTile (resetFrameCollections ts) ts.rootTile fs).1
          ts.rootTile fs) ts.rootTile fs with _skipLevelOfDetail := false } : Tileset).tiles j = ts.tiles j := by
      intro j hj
      rw [htouch]
      simp only [stampTouched, setTile_tiles_other _ _ _ _ hj]
      rw [show ({ (updateTile (resetFrameCollections ts) ts.rootTile fs).1 with
          cacheTouches := (updateTile (resetFrameCollections ts) ts.rootTile fs).1.cacheTouches ++ [ts.rootTile] } : Tileset).tiles j =
          ((updateTile (resetFrameCollections ts) ts.rootTile fs).1).tiles j from rfl]
      rw [updateTile_tiles_other _ _ _ _ hj]
      rfl
    have hmax5 : ({ stampTouched (touch (updateTile (resetFrameCollections ts) ts.rootTile fs).1
          ts.rootTile fs) ts.rootTile fs with _skipLevelOfDetail := false } : Tileset)._maximumScreenSpaceError = ts._maximumScreenSpaceError := by
      rw [htouch]; rfl
    have hsel5 : ({ stampTouched (touch (updateTile (resetFrameCollections ts) ts.rootTile fs).1
          ts.rootTile fs) ts.rootTile fs with _skipLevelOfDetail := false } : Tileset)._selectedTiles = [] := by
      rw [htouch]; rfl
    have hdes5 : ({ stampTouched (touch (updateTile (resetFrameCollections ts) ts.rootTile fs).1
          ts.rootTile fs) ts.rootTile fs with _skipLevelOfDetail := false } : Tileset)._desiredTiles = [] := by
      rw [htouch]; rfl
    have hv5 : (({ stampTouched (touch (updateTile (resetFrameCollections ts) ts.rootTile fs).1
          ts.rootTile fs) ts.rootTile fs with _skipLevelOfDetail := false } : Tileset).tiles ts.rootTile)._visitedFrame ≠ fs.frameNumber := by
      rw [htile5]; exact hvf
    have hp5 : (({ stampTouched (touch (updateTile (resetFrameCollections ts) ts.rootTile fs).1
          ts.rootTile fs) ts.rootTile fs with _skipLevelOfDetail := false } : Tileset).tiles ts.rootTile).parent = none := by
      rw [htile5]; exact hpar
    have hca5 : (({ stampTouched (touch (updateTile (resetFrameCollections ts) ts.rootTile fs).1
          ts.rootTile fs) ts.rootTile fs with _skipLevelOfDetail := false } : Tileset).tiles ts.rootTile).contentState = ContentState.AVAILABLE := by
      rw [htile5]; exact hav ts.rootTile
    have hsse5 : decide (({ stampTouched (touch (updateTile (resetFrameCollections ts) ts.rootTile fs).1
          ts.rootTile fs) ts.rootTile fs with _skipLevelOfDetail := false } : Tileset)._maximumScreenSpaceError <
        (({ stampTouched (touch (updateTile (resetFrameCollections ts) ts.rootTile fs).1
          ts.rootTile fs) ts.rootTile fs with _skipLevelOfDetail := false } : Tileset).tiles ts.rootTile)._screenSpaceError) = false := by
      rw [hmax5, htile5]
      exact decide_eq_false (not_lt.mpr hpos.le)
    cases hrf : (ts.tiles ts.rootTile).refine with
    | REPLACE =>
      have hrf5 : (({ stampTouched (touch (updateTile (resetFrameCollections ts) ts.rootTile fs).1
          ts.rootTile fs) ts.rootTile fs with _skipLevelOfDetail := false } : Tileset).tiles ts.rootTile).refine = Refine.REPLACE := by
        rw [htile5]; exact hrf
      have hdesA : (selectTile (setTile (visitTile ({ stampTouched (touch (updateTile (resetFrameCollections ts) ts.rootTile fs).1
          ts.rootTile fs) ts.rootTile fs with _skipLevelOfDetail := false } : Tileset) ts.rootTile fs)
          ts.rootTile (fun u => { u with _refines := false })) ts.rootTile
          fs)._desiredTiles = [] := by
        rw [selectTile_desiredTiles, setTile_desiredTiles, visitTile_char _ _ _ hv5 hp5]
        exact hdes5
      have hrun : selectTiles ts fs (k + 1) =
          selectTile (setTile (visitTile ({ stampTouched (touch (updateTile (resetFrameCollections ts) ts.rootTile fs).1
          ts.rootTile fs) ts.rootTile fs with _skipLevelOfDetail := false } : Tileset) ts.rootTile fs) ts.rootTile
            (fun u => { u with _refines := false })) ts.rootTile fs := by
        rw [hfull]
        unfold selectBaseTraversal executeBaseTraversal
        dsimp only
        simp only [executeBaseTraversalLoop]
        rw [baseStep_leaf_replace _ _ _ _ _ _ _ _ hv5 hp5 hrf5 hca5 hsse5]
        rw [baseLoop_nil]
        dsimp only
        simp only [List.nil_append, List.foldl_cons, List.foldl_nil]
        rw [hdesA]
        simp only [List.foldl_nil]
      have htA : ((setTile (visitTile ({ stampTouched (touch (updateTile (resetFrameCollections ts) ts.rootTile fs).1
          ts.rootTile fs) ts.rootTile fs with _skipLevelOfDetail := false } : Tileset) ts.rootTile fs) ts.rootTile
          (fun u => { u with _refines := false })).tiles ts.rootTile) =
          { ts.tiles ts.rootTile with
            _distanceToCamera := (ts.tiles ts.rootTile).distanceToTile,
            _centerZDepth := (ts.tiles ts.rootTile).distanceToTileCenter,
            _screenSpaceError := 0,
            _visibilityPlaneMask := (ts.tiles ts.rootTile).visibilityFn MASK_INDETERMINATE,
            _touchedFrame := fs.frameNumber, _visitedFrame := fs.frameNumber,
            selected := false, _finalResolution := false, _refines := false,
            _ancestorWithContentAvailable := none } := by
        simp only [visitTile_char _ _ _ hv5 hp5, setTile_tiles_self, htile5a]
      have hguard : (((setTile (visitTile ({ stampTouched (touch (updateTile (resetFrameCollections ts) ts.rootTile fs).1
          ts.rootTile fs) ts.rootTile fs with _skipLevelOfDetail := false } : Tileset) ts.rootTile fs) ts.rootTile
          (fun u => { u with _refines := false })).tiles ts.rootTile).contentAvailable &&
          (((setTile (visitTile ({ stampTouched (touch (updateTile (resetFrameCollections ts) ts.rootTile fs).1
          ts.rootTile fs) ts.rootTile fs with _skipLevelOfDetail := false } : Tileset) ts.rootTile fs) ts.rootTile
            (fun u => { u with _refines := false })).tiles
              ts.rootTile)._visibilityPlaneMask == MASK_INSIDE ||
           ((setTile (visitTile ({ stampTouched (touch (updateTile (resetFrameCollections ts) ts.rootTile fs).1
          ts.rootTile fs) ts.rootTile fs with _skipLevelOfDetail := false } : Tileset) ts.rootTile fs) ts.rootTile
            (fun u => { u with _refines := false })).tiles
              ts.rootTile).contentVisibility != INTERSECT_OUTSIDE)) = true := by
        rw [htA]
        simp [Tile.contentAvailable, hav ts.rootTile, bne_iff_ne.mpr hcv]
      have hselA : (selectTile (setTile (visitTile ({ stampTouched (touch (updateTile (resetFrameCollections ts) ts.rootTile fs).1
          ts.rootTile fs) ts.rootTile fs with _skipLevelOfDetail := false } : Tileset) ts.rootTile fs)
          ts.rootTile (fun u => { u with _refines := false })) ts.rootTile
          fs)._selectedTiles = [ts.rootTile] := by
        rw [selectTile_selected_of_guard _ _ _ hguard, setTile_selectedTiles,
          visitTile_selectedTiles, hsel5]
        rfl
      refine ⟨?_, ?_⟩
      · rw [hrun, hselA, if_pos hlt]
      · intro j hj
        rw [hrun, selectTile_tiles_other _ _ _ _ hj, setTile_tiles_other _ _ _ _ hj,
          visitTile_tiles_other _ _ _ _ hj, htile5o j hj]
    | ADD =>
      have hrf5 : (({ stampTouched (touch (updateTile (resetFrameCollections ts) ts.rootTile fs).1
          ts.rootTile fs) ts.rootTile fs with _skipLevelOfDetail := false } : Tileset).tiles ts.rootTile).refine = Refine.ADD := by
        rw [htile5]; exact hrf
      have hrun : selectTiles ts fs (k + 1) =
          selectTile ({ setTile (visitTile ({ stampTouched (touch (updateTile (resetFrameCollections ts) ts.rootTile fs).1
          ts.rootTile fs) ts.rootTile fs with _skipLevelOfDetail := false } : Tileset) ts.rootTile fs) ts.rootTile
          (fun u => { u with _refines := false }) with
          _desiredTiles := (visitTile ({ stampTouched (touch (updateTile (resetFrameCollections ts) ts.rootTile fs).1
          ts.rootTile fs) ts.rootTile fs with _skipLevelOfDetail := false } : Tileset) ts.rootTile
            fs)._desiredTiles ++ [ts.rootTile] } : Tileset) ts.rootTile fs := by
        rw [hfull]
        unfold selectBaseTraversal executeBaseTraversal
        dsimp only
        simp only [executeBaseTraversalLoop]
        rw [baseStep_leaf_add _ _ _ _ _ _ _ _ hv5 hp5 hrf5 hca5 hsse5]
        rw [baseLoop_nil]
        dsimp only
        simp only [List.foldl_nil]
        rw [visitTile_desiredTiles, hdes5]
        simp only [List.nil_append, List.foldl_cons, List.foldl_nil]
      have htB : (({ setTile (visitTile ({ stampTouched (touch (updateTile (resetFrameCollections ts) ts.rootTile fs).1
          ts.rootTile fs) ts.rootTile fs with _skipLevelOfDetail := false } : Tileset) ts.rootTile fs) ts.rootTile
          (fun u => { u with _refines := false }) with
          _desiredTiles := (visitTile ({ stampTouched (touch (updateTile (resetFrameCollections ts) ts.rootTile fs).1
          ts.rootTile fs) ts.rootTile fs with _skipLevelOfDetail := false } : Tileset) ts.rootTile
            fs)._desiredTiles ++ [ts.rootTile] } : Tileset).tiles ts.rootTile) =
          { ts.tiles ts.rootTile with
            _distanceToCamera := (ts.tiles ts.rootTile).distanceToTile,
            _centerZDepth := (ts.tiles ts.rootTile).distanceToTileCenter,
            _screenSpaceError := 0,
            _visibilityPlaneMask := (ts.tiles ts.rootTile).visibilityFn MASK_INDETERMINATE,
            _touchedFrame := fs.frameNumber, _visitedFrame := fs.frameNumber,
            selected := false, _finalResolution := false, _refines := false,
            _ancestorWithContentAvailable := none } := by
        show ((setTile (visitTile ({ stampTouched (touch (updateTile (resetFrameCollections ts) ts.rootTile fs).1
          ts.rootTile fs) ts.rootTile fs with _skipLevelOfDetail := false } : Tileset) ts.rootTile fs) ts.rootTile
          (fun u => { u with _refines := false })).tiles ts.rootTile) = _
        simp only [visitTile_char _ _ _ hv5 hp5, setTile_tiles_self, htile5a]
      have hguardB : ((({ setTile (visitTile ({ stampTouched (touch (updateTile (resetFrameCollections ts) ts.rootTile fs).1
          ts.rootTile fs) ts.rootTile fs with _skipLevelOfDetail := false } : Tileset) ts.rootTile fs) ts.rootTile
          (fun u => { u with _refines := false }) with
          _desiredTiles := (visitTile ({ stampTouched (touch (updateTile (resetFrameCollections ts) ts.rootTile fs).1
          ts.rootTile fs) ts.rootTile fs with _skipLevelOfDetail := false } : Tileset) ts.rootTile
            fs)._desiredTiles ++ [ts.rootTile] } : Tileset).tiles ts.rootTile).contentAvailable &&
          ((({ setTile (visitTile ({ stampTouched (touch (updateTile (resetFrameCollections ts) ts.rootTile fs).1
          ts.rootTile fs) ts.rootTile fs with _skipLevelOfDetail := false } : Tileset) ts.rootTile fs) ts.rootTile
          (fun u => { u with _refines := false }) with
          _desiredTiles := (visitTile ({ stampTouched (touch (updateTile (resetFrameCollections ts) ts.rootTile fs).1
          ts.rootTile fs) ts.rootTile fs with _skipLevelOfDetail := false } : Tileset) ts.rootTile
            fs)._desiredTiles ++ [ts.rootTile] } : Tileset).tiles ts.rootTile)._visibilityPlaneMask == MASK_INSIDE ||
           (({ setTile (visitTile ({ stampTouched (touch (updateTile (resetFrameCollections ts) ts.rootTile fs).1
          ts.rootTile fs) ts.rootTile fs with _skipLevelOfDetail := false } : Tileset) ts.rootTile fs) ts.rootTile
          (fun u => { u with _refines := false }) with
          _desiredTiles := (visitTile ({ stampTouched (touch (updateTile (resetFrameCollections ts) ts.rootTile fs).1
          ts.rootTile fs) ts.rootTile fs with _skipLevelOfDetail := false } : Tileset) ts.rootTile
            fs)._desiredTiles ++ [ts.rootTile] } : Tileset).tiles ts.rootTile).contentVisibility !=
             INTERSECT_OUTSIDE)) = true := by
        rw [htB]
        simp [Tile.contentAvailable, hav ts.rootTile, bne_iff_ne.mpr hcv]
      have hselB : (selectTile ({ setTile (visitTile ({ stampTouched (touch (updateTile (resetFrameCollections ts) ts.rootTile fs).1
          ts.rootTile fs) ts.rootTile fs with _skipLevelOfDetail := false } : Tileset) ts.rootTile fs) ts.rootTile
          (fun u => { u with _refines := false }) with
          _desiredTiles := (visitTile ({ stampTouched (touch (updateTile (resetFrameCollections ts) ts.rootTile fs).1
          ts.rootTile fs) ts.rootTile fs with _skipLevelOfDetail := false } : Tileset) ts.rootTile
            fs)._desiredTiles ++ [ts.rootTile] } : Tileset) ts.rootTile fs)._selectedTiles =
          [ts.rootTile] := by
        have hb0 : ({ setTile (visitTile ({ stampTouched (touch (updateTile (resetFrameCollections ts) ts.rootTile fs).1
          ts.rootTile fs) ts.rootTile fs with _skipLevelOfDetail := false } : Tileset) ts.rootTile fs) ts.rootTile
          (fun u => { u with _refines := false }) with
          _desiredTiles := (visitTile ({ stampTouched (touch (updateTile (resetFrameCollections ts) ts.rootTile fs).1
          ts.rootTile fs) ts.rootTile fs with _skipLevelOfDetail := false } : Tileset) ts.rootTile
            fs)._desiredTiles ++ [ts.rootTile] } : Tileset)._selectedTiles = [] := by
          show (setTile (visitTile ({ stampTouched (touch (updateTile (resetFrameCollections ts) ts.rootTile fs).1
          ts.rootTile fs) ts.rootTile fs with _skipLevelOfDetail := false } : Tileset) ts.rootTile fs) ts.rootTile
          (fun u => { u with _refines := false }))._selectedTiles = []
          rw [setTile_selectedTiles, visitTile_selectedTiles]
          exact hsel5
        rw [selectTile_selected_of_guard _ _ _ hguardB, hb0]
        rfl
      refine ⟨?_, ?_⟩
      · rw [hrun, hselB, if_pos hlt]
      · intro j hj
        rw [hrun, selectTile_tiles_other _ _ _ _ hj]
        show ((setTile (visitTile ({ stampTouched (touch (updateTile (resetFrameCollections ts) ts.rootTile fs).1
          ts.rootTile fs) ts.rootTile fs with _skipLevelOfDetail := false } : Tileset) ts.rootTile fs) ts.rootTile
          (fun u => { u with _refines := false })).tiles j) = ts.tiles j
        rw [setTile_tiles_other _ _ _ _ hj, visitTile_tiles_other _ _ _ _ hj,
          htile5o j hj]

/-- Witness for the C2 amended theorem: the concrete one-tile tileset `ts0`
(tileset-level geometric error 10, budget 16, screen space error 20). -/
theorem selectTiles_zero_error_root_dichotomy_witness :
    0 < ts0._maximumScreenSpaceError ∧
    (selectTiles ts0 fs0 1)._selectedTiles =
      (if ts0._maximumScreenSpaceError < tilesetLevelSSE ts0 fs0 then [ts0.rootTile]
       else []) :=
  ⟨by decide,
    (selectTiles_zero_error_root_dichotomy ts0 fs0 1 rfl (by decide) rfl
      (fun _ => rfl) (fun _ => rfl) (by decide) (by decide) rfl rfl (by decide)
      (by decide) (by decide)).1⟩

/-- The original C3 claim fails when the available child refines additively:
the parent is a REPLACE-refining tile with two children above the
screen-space-error threshold with available content, exactly one child has
available content, yet that child is also selected (it is pushed to
`_desiredTiles` and committed by `selectBaseTraversal`). -/
theorem add_child_selected_with_replace_parent :
    (c3bts.tiles 0).refine = Refine.REPLACE ∧
    (c3bts.tiles 0).children = [1, 2] ∧
    (c3bts.tiles 0).contentAvailable = true ∧
    (c3bts.tiles 1).contentAvailable = true ∧
    (c3bts.tiles 2).contentAvailable = false ∧
    c3bts._maximumScreenSpaceError <
      ((selectTiles c3bts fs0 5).tiles c3bts.rootTile)._screenSpaceError ∧
    (1 : Nat) ∈ (selectTiles c3bts fs0 5)._selectedTiles := by
  refine ⟨rfl, rfl, rfl, rfl, rfl, by decide, by decide⟩

/-- `visitTile` on an unvisited tile with a parent: stamp the visit, clear
the selection flags, record the ancestor from the parent's fields. -/
theorem visitTile_char2 (ts : Tileset) (id p : Nat) (fs : FrameState)
    (hv : (ts.tiles id)._visitedFrame ≠ fs.frameNumber)
    (hp : (ts.tiles id).parent = some p) :
    visitTile ts id fs =
      { setTile ts id (fun u =>
          { u with _visitedFrame := fs.frameNumber, selected := false,
                   _finalResolution := false,
                   _ancestorWithContentAvailable :=
                     if (ts.tiles p).refine == Refine.REPLACE &&
                        (ts.tiles p).contentAvailable then some p
                     else (ts.tiles p)._ancestorWithContentAvailable })
        with statisticsVisited := ts.statisticsVisited + 1 } := by
  unfold visitTile
  dsimp only
  rw [if_neg hv, hp]
  rfl

/-- `loadTile` leaves `_desiredTiles` alone. -/
theorem loadTile_desiredTiles (ts : Tileset) (id : Nat) (fs : FrameState) :
    (loadTile ts id fs)._desiredTiles = ts._desiredTiles := by
  unfold loadTile
  split
  · rfl
  · split <;> rfl

/-- `loadTile` only writes `_priority` (and the request list): every other
field of the tile is kept. -/
theorem loadTile_tiles_fields (ts : Tileset) (id : Nat) (fs : FrameState) :
    ((loadTile ts id fs).tiles id).contentState = (ts.tiles id).contentState ∧
    ((loadTile ts id fs).tiles id).hasEmptyContent = (ts.tiles id).hasEmptyContent ∧
    ((loadTile ts id fs).tiles id).hasTilesetContent = (ts.tiles id).hasTilesetContent ∧
    ((loadTile ts id fs).tiles id).parent = (ts.tiles id).parent ∧
    ((loadTile ts id fs).tiles id).children = (ts.tiles id).children ∧
    ((loadTile ts id fs).tiles id).refine = (ts.tiles id).refine ∧
    ((loadTile ts id fs).tiles id)._visitedFrame = (ts.tiles id)._visitedFrame ∧
    ((loadTile ts id fs).tiles id).contentVisibility = (ts.tiles id).contentVisibility ∧
    ((loadTile ts id fs).tiles id)._visibilityPlaneMask = (ts.tiles id)._visibilityPlaneMask := by
  unfold loadTile
  split
  · exact ⟨rfl, rfl, rfl, rfl, rfl, rfl, rfl, rfl, rfl⟩
  · split
    · refine ⟨?_, ?_, ?_, ?_, ?_, ?_, ?_, ?_, ?_⟩ <;> simp [setTile]
    · exact ⟨rfl, rfl, rfl, rfl, rfl, rfl, rfl, rfl, rfl⟩

/-- `loadTile` only ever rewrites the tile it is given. -/
theorem loadTile_tiles_other (ts : Tileset) (id j : Nat) (fs : FrameState)
    (h : j ≠ id) : (loadTile ts id fs).tiles j = ts.tiles j := by
  unfold loadTile
  split
  · rfl
  · split
    · simp [setTile, h]
    · rfl

/-- `touch` leaves `_hasMixedContent` alone. -/
theorem touch_hasMixedContent (ts : Tileset) (id : Nat) (fs : FrameState) :
    (touch ts id fs)._hasMixedContent = ts._hasMixedContent := by
  unfold touch
  split <;> rfl

/-- `loadTile` leaves `_hasMixedContent` alone. -/
theorem loadTile_hasMixedContent (ts : Tileset) (id : Nat) (fs : FrameState) :
    (loadTile ts id fs)._hasMixedContent = ts._hasMixedContent := by
  unfold loadTile
  split
  · rfl
  · split <;> rfl

/-- `visitTile` leaves `_hasMixedContent` alone. -/
theorem visitTile_hasMixedContent (ts : Tileset) (id : Nat) (fs : FrameState) :
    (visitTile ts id fs)._hasMixedContent = ts._hasMixedContent := by
  unfold visitTile
  dsimp only
  split <;> rfl

/-- `selectTile` leaves `_hasMixedContent` alone. -/
theorem selectTile_hasMixedContent (ts : Tileset) (id : Nat) (fs : FrameState) :
    (selectTile ts id fs)._hasMixedContent = ts._hasMixedContent := by
  unfold selectTile
  dsimp only
  split
  · split <;> (try split) <;> simp [setTile]
  · rfl

/-- `updateChildren` over a two-child list is the two `updateTile` calls. -/
theorem updateChildren_two (ts : Tileset) (id c1 c2 : Nat) (fs : FrameState)
    (h : (ts.tiles id).children = [c1, c2]) :
    updateChildren ts id fs =
      ((updateTile (updateTile ts c1 fs).1 c2 fs).1,
        (false || (updateTile ts c1 fs).2) ||
          (updateTile (updateTile ts c1 fs).1 c2 fs).2) := by
  unfold updateChildren
  rw [h]
  simp only [List.foldl_cons, List.foldl_nil]

/-- A leaf tile under a REPLACE parent, not yet touched this frame and with
its stored visibility mask not OUTSIDE, passes `updateVisibility` with no
state change. -/
theorem updateVisibility_leaf (ts : Tileset) (c p : Nat) (maxSSE : ℚ)
    (fs : FrameState)
    (htc : (ts.tiles c)._touchedFrame ≠ fs.frameNumber)
    (hm : (ts.tiles c)._visibilityPlaneMask ≠ MASK_OUTSIDE)
    (hch : (ts.tiles c).children = [])
    (hht : (ts.tiles c).hasTilesetContent = false)
    (hp : (ts.tiles c).parent = some p)
    (hrp : (ts.tiles p).refine = Refine.REPLACE) :
    updateVisibility ts c maxSSE fs = (ts, true) := by
  have hgv : getVisibility ts c maxSSE fs = (ts, true) := by
    unfold getVisibility
    dsimp only
    rw [if_neg hm, hp]
    dsimp only
    rw [hrp, hch, hht]
    simp
  unfold updateVisibility
  rw [if_neg htc, hgv]
  dsimp only
  refine Prod.ext (setTile_id _ _) ?_
  rw [setTile_tiles_self]
  show ((ts.tiles c)._visibilityPlaneMask != MASK_OUTSIDE) = true
  exact bne_iff_ne.mpr hm

/-- `touch` then the touched-frame stamp rewrite exactly the touched frame
of the given tile. -/
theorem stamp_touch_tiles_self (ts : Tileset) (id : Nat) (fs : FrameState) :
    (stampTouched (touch ts id fs) id fs).tiles id =
      { ts.tiles id with _touchedFrame := fs.frameNumber } := by
  unfold touch stampTouched
  split
  · rw [setTile_tiles_self]
  · rw [setTile_tiles_self, setTile_tiles_self]

/-- `touch` and the stamp leave every other tile alone. -/
theorem stamp_touch_tiles_other (ts : Tileset) (id j : Nat) (fs : FrameState)
    (h : j ≠ id) :
    (stampTouched (touch ts id fs) id fs).tiles j = ts.tiles j := by
  unfold touch stampTouched
  split
  · rw [setTile_tiles_other _ _ _ _ h]
  · rw [setTile_tiles_other _ _ _ _ h, setTile_tiles_other _ _ _ _ h]

/-- One child step of the base traversal under a REPLACE parent, for a
visible untouched leaf child: the child is loaded, touched and stamped,
pushed on the stack, and the refines accumulator picks up whether its
content is available. -/
theorem childStep_replace_leaf (fs : FrameState) (maxSSE : ℚ) (fuel : Nat)
    (add : Bool) (ts : Tileset) (acc : Bool) (stack : List Nat) (c p : Nat)
    (htc : (ts.tiles c)._touchedFrame ≠ fs.frameNumber)
    (hm : (ts.tiles c)._visibilityPlaneMask ≠ MASK_OUTSIDE)
    (hch : (ts.tiles c).children = [])
    (hhe : (ts.tiles c).hasEmptyContent = false)
    (hht : (ts.tiles c).hasTilesetContent = false)
    (hp : (ts.tiles c).parent = some p)
    (hrp : (ts.tiles p).refine = Refine.REPLACE) :
    baseTraversalChildStep fs maxSSE fuel add true (ts, acc, stack) c =
      (stampTouched (touch (loadTile ts c fs) c fs) c fs,
        acc && ((ts.tiles c).contentState == ContentState.AVAILABLE),
        c :: stack) := by
  have h1 : ((stampTouched (touch (loadTile ts c fs) c fs) c fs).tiles
      c).hasEmptyContent = false := by
    rw [stamp_touch_tiles_self]
    show ((loadTile ts c fs).tiles c).hasEmptyContent = false
    rw [(loadTile_tiles_fields ts c fs).2.1, hhe]
  have h2 : ((stampTouched (touch (loadTile ts c fs) c fs) c fs).tiles
      c).hasTilesetContent = false := by
    rw [stamp_touch_tiles_self]
    show ((loadTile ts c fs).tiles c).hasTilesetContent = false
    rw [(loadTile_tiles_fields ts c fs).2.2.1, hht]
  have h3 : ((stampTouched (touch (loadTile ts c fs) c fs) c fs).tiles
      c).contentState = (ts.tiles c).contentState := by
    rw [stamp_touch_tiles_self]
    show ((loadTile ts c fs).tiles c).contentState = (ts.tiles c).contentState
    exact (loadTile_tiles_fields ts c fs).1
  unfold baseTraversalChildStep
  dsimp only
  rw [updateVisibility_leaf ts c p maxSSE fs htc hm hch hht hp hrp]
  dsimp only
  simp only [Bool.true_or, Bool.and_true, if_true]
  cases acc
  · simp
  · simp [Tile.contentAvailable, h1, h2, h3]

/-- One base-traversal step at an unvisited REPLACE root with two children
above the screen-space-error threshold: visit, run both child steps, record
the accumulated refines flag, and collect the root as a leaf exactly when
the children could not refine. -/
theorem baseStep_replace_two (fs : FrameState) (maxSSE : ℚ) (fuel : Nat)
    (ts : Tileset) (id c1 c2 : Nat) (stack leaves : List Nat) (fr : Bool)
    (hv : (ts.tiles id)._visitedFrame ≠ fs.frameNumber)
    (hp : (ts.tiles id).parent = none)
    (hrf : (ts.tiles id).refine = Refine.REPLACE)
    (hca : (ts.tiles id).contentState = ContentState.AVAILABLE)
    (hch : (ts.tiles id).children = [c1, c2])
    (htr : decide (maxSSE < (ts.tiles id)._screenSpaceError) = true) :
    executeBaseTraversalStep fs maxSSE fuel ts id stack leaves fr =
      (let r := baseTraversalChildStep fs maxSSE fuel false true
          (baseTraversalChildStep fs maxSSE fuel false true
            (visitTile ts id fs, true, stack) c1) c2
       (setTile r.1 id (fun u => { u with _refines := r.2.1 }),
        r.2.2,
        if !r.2.1 then leaves ++ [id] else leaves,
        if !r.2.1 then fr && false else fr)) := by
  unfold executeBaseTraversalStep
  rw [visitTile_char ts id fs hv hp]
  simp [setTile, Tile.contentAvailable, hrf, hca, hch, hp, htr,
    show (Refine.REPLACE == Refine.ADD) = false from rfl,
    visitTile_char ts id fs hv hp]

/-- A base-traversal step at an unvisited leaf whose parent could not
refine: the tile is visited and marked non-refining, and nothing is
collected. -/
theorem baseStep_leaf_no_collect (fs : FrameState) (maxSSE : ℚ) (fuel : Nat)
    (ts : Tileset) (id p : Nat) (stack leaves : List Nat) (fr : Bool)
    (hv : (ts.tiles id)._visitedFrame ≠ fs.frameNumber)
    (hp : (ts.tiles id).parent = some p)
    (hpid : p ≠ id)
    (hrf : (ts.tiles id).refine = Refine.REPLACE)
    (hch : (ts.tiles id).children = [])
    (hpr : (ts.tiles p)._refines = false) :
    executeBaseTraversalStep fs maxSSE fuel ts id stack leaves fr =
      (setTile (visitTile ts id fs) id (fun u => { u with _refines := false }),
        stack, leaves, fr) := by
  unfold executeBaseTraversalStep
  rw [visitTile_char2 ts id p fs hv hp]
  simp [setTile, Tile.contentAvailable, hrf, hch, hp, hpid, hpr,
    show (Refine.REPLACE == Refine.ADD) = false from rfl,
    visitTile_char2 ts id p fs hv hp]

/-- `updateTile` leaves the frame collections and configuration alone. -/
theorem updateTile_maxSSE (ts : Tileset) (id : Nat) (fs : FrameState) :
    (updateTile ts id fs).1._maximumScreenSpaceError = ts._maximumScreenSpaceError := rfl

theorem updateTile_desired (ts : Tileset) (id : Nat) (fs : FrameState) :
    (updateTile ts id fs).1._desiredTiles = ts._desiredTiles := rfl

theorem updateTile_hasMixed (ts : Tileset) (id : Nat) (fs : FrameState) :
    (updateTile ts id fs).1._hasMixedContent = ts._hasMixedContent := rfl

/-- `touch` leaves the error budget alone. -/
theorem touch_maxSSE (ts : Tileset) (id : Nat) (fs : FrameState) :
    (touch ts id fs)._maximumScreenSpaceError = ts._maximumScreenSpaceError := by
  unfold touch
  split <;> rfl

/-- `stampTouched` leaves the error budget alone. -/
theorem stampTouched_maxSSE (ts : Tileset) (id : Nat) (fs : FrameState) :
    (stampTouched ts id fs)._maximumScreenSpaceError = ts._maximumScreenSpaceError := rfl

/-- `stampTouched` leaves `_desiredTiles` alone. -/
theorem stampTouched_desiredTiles (ts : Tileset) (id : Nat) (fs : FrameState) :
    (stampTouched ts id fs)._desiredTiles = ts._desiredTiles := rfl

/-- `stampTouched` leaves `_hasMixedContent` alone. -/
theorem stampTouched_hasMixedContent (ts : Tileset) (id : Nat) (fs : FrameState) :
    (stampTouched ts id fs)._hasMixedContent = ts._hasMixedContent := rfl

/-- `setTile` leaves `_hasMixedContent` alone. -/
theorem setTile_hasMixedContent (ts : Tileset) (id : Nat) (f : Tile → Tile) :
    (setTile ts id f)._hasMixedContent = ts._hasMixedContent := rfl

/-- Two calls of `selectTiles` with the same frame select the same tiles on
the concrete scenario tilesets (second-frame paths take the stamp-guarded
caches); evaluated here on the two-tile and three-tile REPLACE trees. -/
theorem selectTiles_twice_same_selection_examples :
    (selectTiles (selectTiles c4ts fs0 5) fs0 5)._selectedTiles =
      (selectTiles c4ts fs0 5)._selectedTiles ∧
    (selectTiles (selectTiles c3ts fs0 5) fs0 5)._selectedTiles =
      (selectTiles c3ts fs0 5)._selectedTiles := by
  refine ⟨by decide, by decide⟩

/-- Claim C3 (amended), general form: a REPLACE-refining root above the
screen-space-error threshold, with available, uncullable content, whose two
visible REPLACE leaf children have exactly one content available (the other
unloaded), is selected alone: selectedTiles is exactly the root, neither
child is selected, and `_hasMixedContent` stays false. -/
theorem selectTiles_replace_fallback_parent_only
    (ts : Tileset) (fs : FrameState) (fuel c1 c2 : Nat)
    (hdf : ts.debugFreezeFrame = false)
    (hfuel : 3 ≤ fuel)
    (hc1R : c1 ≠ ts.rootTile) (hc2R : c2 ≠ ts.rootTile) (hc12 : c1 ≠ c2)
    (hpar : (ts.tiles ts.rootTile).parent = none)
    (hch : (ts.tiles ts.rootTile).children = [c1, c2])
    (hrfR : (ts.tiles ts.rootTile).refine = Refine.REPLACE)
    (hcaR : (ts.tiles ts.rootTile).contentState = ContentState.AVAILABLE)
    (hvisR : (ts.tiles ts.rootTile).visibilityFn MASK_INDETERMINATE ≠ MASK_OUTSIDE)
    (hvrvR : (ts.tiles ts.rootTile).insideViewerRequestVolume = true)
    (hoptR : (ts.tiles ts.rootTile)._optimChildrenWithinParent = false)
    (hcvR : (ts.tiles ts.rootTile).contentVisibility ≠ INTERSECT_OUTSIDE)
    (htfR : (ts.tiles ts.rootTile)._touchedFrame ≠ fs.frameNumber)
    (hvfR : (ts.tiles ts.rootTile)._visitedFrame ≠ fs.frameNumber)
    (hbudget : ts._maximumScreenSpaceError < tilesetLevelSSE ts fs)
    (hsseR : ts._maximumScreenSpaceError < storedScreenSpaceError ts ts.rootTile fs)
    (hp1 : (ts.tiles c1).parent = some ts.rootTile)
    (hch1 : (ts.tiles c1).children = [])
    (hrf1 : (ts.tiles c1).refine = Refine.REPLACE)
    (hvrv1 : (ts.tiles c1).insideViewerRequestVolume = true)
    (hvis1 : (ts.tiles c1).visibilityFn
      ((ts.tiles ts.rootTile).visibilityFn MASK_INDETERMINATE) ≠ MASK_OUTSIDE)
    (hhe1 : (ts.tiles c1).hasEmptyContent = false)
    (hht1 : (ts.tiles c1).hasTilesetContent = false)
    (htf1 : (ts.tiles c1)._touchedFrame ≠ fs.frameNumber)
    (hvf1 : (ts.tiles c1)._visitedFrame ≠ fs.frameNumber)
    (hca1 : (ts.tiles c1).contentState = ContentState.AVAILABLE)
    (hp2 : (ts.tiles c2).parent = some ts.rootTile)
    (hch2 : (ts.tiles c2).children = [])
    (hrf2 : (ts.tiles c2).refine = Refine.REPLACE)
    (hvrv2 : (ts.tiles c2).insideViewerRequestVolume = true)
    (hvis2 : (ts.tiles c2).visibilityFn
      ((ts.tiles ts.rootTile).visibilityFn MASK_INDETERMINATE) ≠ MASK_OUTSIDE)
    (hhe2 : (ts.tiles c2).hasEmptyContent = false)
    (hht2 : (ts.tiles c2).hasTilesetContent = false)
    (htf2 : (ts.tiles c2)._touchedFrame ≠ fs.frameNumber)
    (hvf2 : (ts.tiles c2)._visitedFrame ≠ fs.frameNumber)
    (hcs2 : (ts.tiles c2).contentState = ContentState.UNLOADED) :
    (selectTiles ts fs fuel)._selectedTiles = [ts.rootTile] ∧
    c1 ∉ (selectTiles ts fs fuel)._selectedTiles ∧
    c2 ∉ (selectTiles ts fs fuel)._selectedTiles ∧
    (selectTiles ts fs fuel)._hasMixedContent = false := by
  have hpm : parentMask (resetFrameCollections ts) ts.rootTile = MASK_INDETERMINATE := by
    unfold parentMask
    rw [show (resetFrameCollections ts).tiles ts.rootTile = ts.tiles ts.rootTile from rfl, hpar]
  have hu2 : (updateTile (resetFrameCollections ts) ts.rootTile fs).2 = true := by
    rw [updateTile_snd, hpm]
    rw [show (resetFrameCollections ts).tiles ts.rootTile = ts.tiles ts.rootTile from rfl]
    rw [hvrvR, Bool.and_true]
    exact bne_iff_ne.mpr hvisR
  have hT1 : (updateTile (resetFrameCollections ts) ts.rootTile fs).1.tiles ts.rootTile =
      { ts.tiles ts.rootTile with
        _distanceToCamera := (ts.tiles ts.rootTile).distanceToTile,
        _centerZDepth := (ts.tiles ts.rootTile).distanceToTileCenter,
        _screenSpaceError := storedScreenSpaceError ts ts.rootTile fs,
        _visibilityPlaneMask := (ts.tiles ts.rootTile).visibilityFn MASK_INDETERMINATE } := by
    rw [updateTile_tiles_self]
    rw [show (resetFrameCollections ts).tiles ts.rootTile = ts.tiles ts.rootTile from rfl]
    rw [if_pos hu2, hpm]
    rw [show getScreenSpaceError (resetFrameCollections ts)
        (ts.tiles ts.rootTile).geometricError
        { ts.tiles ts.rootTile with
          _distanceToCamera := (ts.tiles ts.rootTile).distanceToTile } fs =
        storedScreenSpaceError ts ts.rootTile fs from
      getScreenSpaceError_congr _ _ _ _ _ fs rfl rfl rfl rfl]
  have hX1c1 : (updateTile (resetFrameCollections ts) ts.rootTile fs).1.tiles c1 = ts.tiles c1 := by
    rw [updateTile_tiles_other _ _ _ _ hc1R]
    rfl
  have hX1c2 : (updateTile (resetFrameCollections ts) ts.rootTile fs).1.tiles c2 = ts.tiles c2 := by
    rw [updateTile_tiles_other _ _ _ _ hc2R]
    rfl
  have hpmc1 : parentMask (updateTile (resetFrameCollections ts) ts.rootTile fs).1 c1 = (ts.tiles ts.rootTile).visibilityFn MASK_INDETERMINATE := by
    unfold parentMask
    rw [hX1c1, hp1]
    dsimp only
    rw [hT1]
  have hu2c1 : (updateTile (updateTile (resetFrameCollections ts) ts.rootTile fs).1 c1 fs).2 = true := by
    rw [updateTile_snd, hpmc1, hX1c1, hvrv1, Bool.and_true]
    exact bne_iff_ne.mpr hvis1
  have hU1c1 : (updateTile (updateTile (resetFrameCollections ts) ts.rootTile fs).1 c1 fs).1.tiles c1 =
      { ts.tiles c1 with
        _distanceToCamera := (ts.tiles c1).distanceToTile,
        _centerZDepth := (ts.tiles c1).distanceToTileCenter,
        _screenSpaceError := storedScreenSpaceError ts c1 fs,
        _visibilityPlaneMask := (ts.tiles c1).visibilityFn
          ((ts.tiles ts.rootTile).visibilityFn MASK_INDETERMINATE) } := by
    rw [updateTile_tiles_self, hX1c1, if_pos hu2c1, hpmc1]
    rw [show getScreenSpaceError (updateTile (resetFrameCollections ts) ts.rootTile fs).1
        (ts.tiles c1).geometricError
        { ts.tiles c1 with _distanceToCamera := (ts.tiles c1).distanceToTile } fs =
        storedScreenSpaceError ts c1 fs from
      getScreenSpaceError_congr _ _ _ _ _ fs rfl rfl rfl rfl]
  have hU1R : (updateTile (updateTile (resetFrameCollections ts) ts.rootTile fs).1 c1 fs).1.tiles ts.rootTile = (updateTile (resetFrameCollections ts) ts.rootTile fs).1.tiles ts.rootTile := by
    rw [updateTile_tiles_other _ _ _ _ (Ne.symm hc1R)]
  have hU1c2 : (updateTile (updateTile (resetFrameCollections ts) ts.rootTile fs).1 c1 fs).1.tiles c2 = ts.tiles c2 := by
    rw [updateTile_tiles_other _ _ _ _ (Ne.symm hc12), hX1c2]
  have hpmc2 : parentMask (updateTile (updateTile (resetFrameCollections ts) ts.rootTile fs).1 c1 fs).1 c2 =
      (ts.tiles ts.rootTile).visibilityFn MASK_INDETERMINATE := by
    unfold parentMask
    rw [hU1c2, hp2]
    dsimp only
    rw [hU1R, hT1]
  have hu2c2 : (updateTile (updateTile (updateTile (resetFrameCollections ts) ts.rootTile fs).1 c1 fs).1 c2 fs).2 = true := by
    rw [updateTile_snd, hpmc2, hU1c2, hvrv2, Bool.and_true]
    exact bne_iff_ne.mpr hvis2
  have hU2c2 : (updateTile (updateTile (updateTile (resetFrameCollections ts) ts.rootTile fs).1 c1 fs).1 c2 fs).1.tiles c2 =
      { ts.tiles c2 with
        _distanceToCamera := (ts.tiles c2).distanceToTile,
        _centerZDepth := (ts.tiles c2).distanceToTileCenter,
        _screenSpaceError := storedScreenSpaceError ts c2 fs,
        _visibilityPlaneMask := (ts.tiles c2).visibilityFn
          ((ts.tiles ts.rootTile).visibilityFn MASK_INDETERMINATE) } := by
    rw [updateTile_tiles_self, hU1c2, if_pos hu2c2, hpmc2]
    rw [show getScreenSpaceError (updateTile (updateTile (resetFrameCollections ts) ts.rootTile fs).1 c1 fs).1
        (ts.tiles c2).geometricError
        { ts.tiles c2 with _distanceToCamera := (ts.tiles c2).distanceToTile } fs =
        storedScreenSpaceError ts c2 fs from
      getScreenSpaceError_congr _ _ _ _ _ fs rfl rfl rfl rfl]
  have hU2c1 : (updateTile (updateTile (updateTile (resetFrameCollections ts) ts.rootTile fs).1 c1 fs).1 c2 fs).1.tiles c1 = (updateTile (updateTile (resetFrameCollections ts) ts.rootTile fs).1 c1 fs).1.tiles c1 := by
    rw [updateTile_tiles_other _ _ _ _ hc12]
  have hU2R : (updateTile (updateTile (updateTile (resetFrameCollections ts) ts.rootTile fs).1 c1 fs).1 c2 fs).1.tiles ts.rootTile = (updateTile (resetFrameCollections ts) ts.rootTile fs).1.tiles ts.rootTile := by
    rw [updateTile_tiles_other _ _ _ _ (Ne.symm hc2R), hU1R]
  have hchX1 : ((updateTile (resetFrameCollections ts) ts.rootTile fs).1.tiles ts.rootTile).children = [c1, c2] := by
    rw [hT1]
    exact hch
  have htchX1 : ((updateTile (resetFrameCollections ts) ts.rootTile fs).1.tiles ts.rootTile)._touchedFrame =
      (ts.tiles ts.rootTile)._touchedFrame := by
    rw [hT1]
  have hgvR : getVisibility (updateTile (resetFrameCollections ts) ts.rootTile fs).1 ts.rootTile ts._maximumScreenSpaceError fs =
      ((updateTile (updateTile (updateTile (resetFrameCollections ts) ts.rootTile fs).1 c1 fs).1 c2 fs).1, true) := by
    unfold getVisibility
    dsimp only
    rw [hT1]
    dsimp only
    rw [if_neg hvisR]
    simp only [Tile.contentExpired, hcaR, hpar, hoptR, hchX1,
      show (ContentState.AVAILABLE == ContentState.EXPIRED) = false from rfl,
      Bool.and_false, Bool.false_eq_true, if_false, Bool.not_true, Bool.false_or,
      Bool.false_and, ite_false,
      decide_eq_false (not_le.mpr hsseR), Bool.not_false, Bool.true_or]
    rw [updateChildren_two (updateTile (resetFrameCollections ts) ts.rootTile fs).1 ts.rootTile c1 c2 fs hchX1]
    simp [hch]
  have hv1R : (updateVisibility (updateTile (resetFrameCollections ts) ts.rootTile fs).1 ts.rootTile ts._maximumScreenSpaceError fs).1 =
      (updateTile (updateTile (updateTile (resetFrameCollections ts) ts.rootTile fs).1 c1 fs).1 c2 fs).1 := by
    unfold updateVisibility
    rw [if_neg (fun hcontra => htfR (htchX1 ▸ hcontra)), hgvR]
    dsimp only
    exact setTile_id _ _
  have hv2R : (updateVisibility (updateTile (resetFrameCollections ts) ts.rootTile fs).1 ts.rootTile ts._maximumScreenSpaceError fs).2 =
      true := by
    unfold updateVisibility
    rw [if_neg (fun hcontra => htfR (htchX1 ▸ hcontra)), hgvR]
    dsimp only
    rw [setTile_tiles_self]
    show (((updateTile (updateTile (updateTile (resetFrameCollections ts) ts.rootTile fs).1 c1 fs).1 c2 fs).1.tiles ts.rootTile)._visibilityPlaneMask != MASK_OUTSIDE) = true
    rw [hU2R, hT1]
    exact bne_iff_ne.mpr hvisR
  have h80R : getScreenSpaceError (updateTile (updateTile (updateTile (resetFrameCollections ts) ts.rootTile fs).1 c1 fs).1 c2 fs).1 ((updateTile (updateTile (updateTile (resetFrameCollections ts) ts.rootTile fs).1 c1 fs).1 c2 fs).1)._geometricError
      ((updateTile (updateTile (updateTile (resetFrameCollections ts) ts.rootTile fs).1 c1 fs).1 c2 fs).1.tiles ts.rootTile) fs = tilesetLevelSSE ts fs := by
    refine getScreenSpaceError_congr _ _ _ _ _ fs rfl rfl rfl ?_
    rw [hU2R, hT1]
  have hcuR : ((updateTile (updateTile (updateTile (resetFrameCollections ts) ts.rootTile fs).1 c1 fs).1 c2 fs).1.tiles ts.rootTile).contentUnloaded = false := by
    rw [hU2R, hT1]
    simp [Tile.contentUnloaded, hcaR]
  have hceR : ((updateTile (updateTile (updateTile (resetFrameCollections ts) ts.rootTile fs).1 c1 fs).1 c2 fs).1.tiles ts.rootTile).contentExpired = false := by
    rw [hU2R, hT1]
    simp [Tile.contentExpired, hcaR]
  have htchU2 : ((updateTile (updateTile (updateTile (resetFrameCollections ts) ts.rootTile fs).1 c1 fs).1 c2 fs).1.tiles ts.rootTile)._touchedFrame =
      (ts.tiles ts.rootTile)._touchedFrame := by
    rw [hU2R, hT1]
  have hloadR : loadTile (updateTile (updateTile (updateTile (resetFrameCollections ts) ts.rootTile fs).1 c1 fs).1 c2 fs).1 ts.rootTile fs = (updateTile (updateTile (updateTile (resetFrameCollections ts) ts.rootTile fs).1 c1 fs).1 c2 fs).1 := by
    unfold loadTile
    rw [if_neg (fun hcontra => htfR (htchU2 ▸ hcontra))]
    rw [hcuR, hceR]
    rfl
  have htouchR : touch (updateTile (updateTile (updateTile (resetFrameCollections ts) ts.rootTile fs).1 c1 fs).1 c2 fs).1 ts.rootTile fs =
      setTile { (updateTile (updateTile (updateTile (resetFrameCollections ts) ts.rootTile fs).1 c1 fs).1 c2 fs).1 with
          cacheTouches := (updateTile (updateTile (updateTile (resetFrameCollections ts) ts.rootTile fs).1 c1 fs).1 c2 fs).1.cacheTouches ++ [ts.rootTile] }
        ts.rootTile (fun u => { u with _touchedFrame := fs.frameNumber }) := by
    unfold touch
    rw [if_neg (fun hcontra => htfR (htchU2 ▸ hcontra))]
  have hfullG : selectTiles ts fs fuel =
      selectBaseTraversal
        { stampTouched (touch (updateTile (updateTile (updateTile (resetFrameCollections ts) ts.rootTile fs).1 c1 fs).1 c2 fs).1 ts.rootTile fs) ts.rootTile fs with
          _skipLevelOfDetail := false }
        ts.rootTile fs fuel := by
    unfold selectTiles
    simp only [hdf, Bool.false_eq_true, if_false,
      show (resetFrameCollections ts).rootTile = ts.rootTile from rfl,
      hu2, if_true, hv1R, hv2R, Bool.not_true, h80R,
      decide_eq_false (not_le.mpr hbudget), hloadR,
      dispatchedStrategy]
    rfl
  have htile5R : ({ stampTouched (touch (updateTile (updateTile (updateTile (resetFrameCollections ts) ts.rootTile fs).1 c1 fs).1 c2 fs).1 ts.rootTile fs) ts.rootTile fs with
          _skipLevelOfDetail := false } : Tileset).tiles ts.rootTile = { ts.tiles ts.rootTile with
        _distanceToCamera := (ts.tiles ts.rootTile).distanceToTile,
        _centerZDepth := (ts.tiles ts.rootTile).distanceToTileCenter,
        _screenSpaceError := storedScreenSpaceError ts ts.rootTile fs,
        _visibilityPlaneMask := (ts.tiles ts.rootTile).visibilityFn MASK_INDETERMINATE,
        _touchedFrame := fs.frameNumber } := by
    rw [htouchR]
    simp only [stampTouched, setTile_tiles_self]
    rw [hU2R, hT1]
  have htile5c1 : ({ stampTouched (touch (updateTile (updateTile (updateTile (resetFrameCollections ts) ts.rootTile fs).1 c1 fs).1 c2 fs).1 ts.rootTile fs) ts.rootTile fs with
          _skipLevelOfDetail := false } : Tileset).tiles c1 = { ts.tiles c1 with
        _distanceToCamera := (ts.tiles c1).distanceToTile,
        _centerZDepth := (ts.tiles c1).distanceToTileCenter,
        _screenSpaceError := storedScreenSpaceError ts c1 fs,
        _visibilityPlaneMask := (ts.tiles c1).visibilityFn
          ((ts.tiles ts.rootTile).visibilityFn MASK_INDETERMINATE) } := by
    rw [htouchR]
    simp only [stampTouched, setTile_tiles_other _ _ _ _ hc1R]
    rw [show ({ (updateTile (updateTile (updateTile (resetFrameCollections ts) ts.rootTile fs).1 c1 fs).1 c2 fs).1 with
        cacheTouches := (updateTile (updateTile (updateTile (resetFrameCollections ts) ts.rootTile fs).1 c1 fs).1 c2 fs).1.cacheTouches ++ [ts.rootTile] } : Tileset).tiles c1 =
        (updateTile (updateTile (updateTile (resetFrameCollections ts) ts.rootTile fs).1 c1 fs).1 c2 fs).1.tiles c1 from rfl]
    rw [hU2c1, hU1c1]
  have htile5c2 : ({ stampTouched (touch (updateTile (updateTile (updateTile (resetFrameCollections ts) ts.rootTile fs).1 c1 fs).1 c2 fs).1 ts.rootTile fs) ts.rootTile fs with
          _skipLevelOfDetail := false } : Tileset).tiles c2 = { ts.tiles c2 with
        _distanceToCamera := (ts.tiles c2).distanceToTile,
        _centerZDepth := (ts.tiles c2).distanceToTileCenter,
        _screenSpaceError := storedScreenSpaceError ts c2 fs,
        _visibilityPlaneMask := (ts.tiles c2).visibilityFn
          ((ts.tiles ts.rootTile).visibilityFn MASK_INDETERMINATE) } := by
    rw [htouchR]
    simp only [stampTouched, setTile_tiles_other _ _ _ _ hc2R]
    rw [show ({ (updateTile (updateTile (updateTile (resetFrameCollections ts) ts.rootTile fs).1 c1 fs).1 c2 fs).1 with
        cacheTouches := (updateTile (updateTile (updateTile (resetFrameCollections ts) ts.rootTile fs).1 c1 fs).1 c2 fs).1.cacheTouches ++ [ts.rootTile] } : Tileset).tiles c2 =
        (updateTile (updateTile (updateTile (resetFrameCollections ts) ts.rootTile fs).1 c1 fs).1 c2 fs).1.tiles c2 from rfl]
    rw [hU2c2]
  have hmax5 : ({ stampTouched (touch (updateTile (updateTile (updateTile (resetFrameCollections ts) ts.rootTile fs).1 c1 fs).1 c2 fs).1 ts.rootTile fs) ts.rootTile fs with
          _skipLevelOfDetail := false } : Tileset)._maximumScreenSpaceError =
      ts._maximumScreenSpaceError := by
    show (stampTouched (touch (updateTile (updateTile (updateTile (resetFrameCollections ts) ts.rootTile fs).1 c1 fs).1 c2 fs).1 ts.rootTile fs) ts.rootTile fs)._maximumScreenSpaceError = ts._maximumScreenSpaceError
    rw [stampTouched_maxSSE, touch_maxSSE, updateTile_maxSSE, updateTile_maxSSE,
      updateTile_maxSSE]
    rfl
  have hsel5 : ({ stampTouched (touch (updateTile (updateTile (updateTile (resetFrameCollections ts) ts.rootTile fs).1 c1 fs).1 c2 fs).1 ts.rootTile fs) ts.rootTile fs with
          _skipLevelOfDetail := false } : Tileset)._selectedTiles = [] := by
    show (stampTouched (touch (updateTile (updateTile (updateTile (resetFrameCollections ts) ts.rootTile fs).1 c1 fs).1 c2 fs).1 ts.rootTile fs) ts.rootTile fs)._selectedTiles = []
    rw [stampTouched_selectedTiles, touch_selectedTiles, updateTile_selectedTiles,
      updateTile_selectedTiles, updateTile_selectedTiles]
    rfl
  have hdes5 : ({ stampTouched (touch (updateTile (updateTile (updateTile (resetFrameCollections ts) ts.rootTile fs).1 c1 fs).1 c2 fs).1 ts.rootTile fs) ts.rootTile fs with
          _skipLevelOfDetail := false } : Tileset)._desiredTiles = [] := by
    show (stampTouched (touch (updateTile (updateTile (updateTile (resetFrameCollections ts) ts.rootTile fs).1 c1 fs).1 c2 fs).1 ts.rootTile fs) ts.rootTile fs)._desiredTiles = []
    rw [stampTouched_desiredTiles, touch_desiredTiles, updateTile_desired,
      updateTile_desired, updateTile_desired]
    rfl
  have hmix5 : ({ stampTouched (touch (updateTile (updateTile (updateTile (resetFrameCollections ts) ts.rootTile fs).1 c1 fs).1 c2 fs).1 ts.rootTile fs) ts.rootTile fs with
          _skipLevelOfDetail := false } : Tileset)._hasMixedContent = false := by
    show (stampTouched (touch (updateTile (updateTile (updateTile (resetFrameCollections ts) ts.rootTile fs).1 c1 fs).1 c2 fs).1 ts.rootTile fs) ts.rootTile fs)._hasMixedContent = false
    rw [stampTouched_hasMixedContent, touch_hasMixedContent, updateTile_hasMixed,
      updateTile_hasMixed, updateTile_hasMixed]
    rfl
  have htile5Ra : (stampTouched (touch (updateTile (updateTile (updateTile (resetFrameCollections ts) ts.rootTile fs).1 c1 fs).1 c2 fs).1 ts.rootTile fs) ts.rootTile fs).tiles ts.rootTile = { ts.tiles ts.rootTile with
        _distanceToCamera := (ts.tiles ts.rootTile).distanceToTile,
        _centerZDepth := (ts.tiles ts.rootTile).distanceToTileCenter,
        _screenSpaceError := storedScreenSpaceError ts ts.rootTile fs,
        _visibilityPlaneMask := (ts.tiles ts.rootTile).visibilityFn MASK_INDETERMINATE,
        _touchedFrame := fs.frameNumber } := htile5R
  have htile5c1a : (stampTouched (touch (updateTile (updateTile (updateTile (resetFrameCollections ts) ts.rootTile fs).1 c1 fs).1 c2 fs).1 ts.rootTile fs) ts.rootTile fs).tiles c1 = { ts.tiles c1 with
        _distanceToCamera := (ts.tiles c1).distanceToTile,
        _centerZDepth := (ts.tiles c1).distanceToTileCenter,
        _screenSpaceError := storedScreenSpaceError ts c1 fs,
        _visibilityPlaneMask := (ts.tiles c1).visibilityFn
          ((ts.tiles ts.rootTile).visibilityFn MASK_INDETERMINATE) } := htile5c1
  have htile5c2a : (stampTouched (touch (updateTile (updateTile (updateTile (resetFrameCollections ts) ts.rootTile fs).1 c1 fs).1 c2 fs).1 ts.rootTile fs) ts.rootTile fs).tiles c2 = { ts.tiles c2 with
        _distanceToCamera := (ts.tiles c2).distanceToTile,
        _centerZDepth := (ts.tiles c2).distanceToTileCenter,
        _screenSpaceError := storedScreenSpaceError ts c2 fs,
        _visibilityPlaneMask := (ts.tiles c2).visibilityFn
          ((ts.tiles ts.rootTile).visibilityFn MASK_INDETERMINATE) } := htile5c2
  have hv5R : (({ stampTouched (touch (updateTile (updateTile (updateTile (resetFrameCollections ts) ts.rootTile fs).1 c1 fs).1 c2 fs).1 ts.rootTile fs) ts.rootTile fs with
          _skipLevelOfDetail := false } : Tileset).tiles ts.rootTile)._visitedFrame ≠ fs.frameNumber := by
    rw [htile5R]; exact hvfR
  have hp5R : (({ stampTouched (touch (updateTile (updateTile (updateTile (resetFrameCollections ts) ts.rootTile fs).1 c1 fs).1 c2 fs).1 ts.rootTile fs) ts.rootTile fs with
          _skipLevelOfDetail := false } : Tileset).tiles ts.rootTile).parent = none := by
    rw [htile5R]; exact hpar
  have hrf5R : (({ stampTouched (touch (updateTile (updateTile (updateTile (resetFrameCollections ts) ts.rootTile fs).1 c1 fs).1 c2 fs).1 ts.rootTile fs) ts.rootTile fs with
          _skipLevelOfDetail := false } : Tileset).tiles ts.rootTile).refine = Refine.REPLACE := by
    rw [htile5R]; exact hrfR
  have hca5R : (({ stampTouched (touch (updateTile (updateTile (updateTile (resetFrameCollections ts) ts.rootTile fs).1 c1 fs).1 c2 fs).1 ts.rootTile fs) ts.rootTile fs with
          _skipLevelOfDetail := false } : Tileset).tiles ts.rootTile).contentState =
      ContentState.AVAILABLE := by
    rw [htile5R]; exact hcaR
  have hch5R : (({ stampTouched (touch (updateTile (updateTile (updateTile (resetFrameCollections ts) ts.rootTile fs).1 c1 fs).1 c2 fs).1 ts.rootTile fs) ts.rootTile fs with
          _skipLevelOfDetail := false } : Tileset).tiles ts.rootTile).children = [c1, c2] := by
    rw [htile5R]; exact hch
  have htr5 : decide (({ stampTouched (touch (updateTile (updateTile (updateTile (resetFrameCollections ts) ts.rootTile fs).1 c1 fs).1 c2 fs).1 ts.rootTile fs) ts.rootTile fs with
          _skipLevelOfDetail := false } : Tileset)._maximumScreenSpaceError <
      (({ stampTouched (touch (updateTile (updateTile (updateTile (resetFrameCollections ts) ts.rootTile fs).1 c1 fs).1 c2 fs).1 ts.rootTile fs) ts.rootTile fs with
          _skipLevelOfDetail := false } : Tileset).tiles ts.rootTile)._screenSpaceError) = true := by
    rw [hmax5, htile5R]
    exact decide_eq_true hsseR
  have hV1R : (visitTile ({ stampTouched (touch (updateTile (updateTile (updateTile (resetFrameCollections ts) ts.rootTile fs).1 c1 fs).1 c2 fs).1 ts.rootTile fs) ts.rootTile fs with
          _skipLevelOfDetail := false } : Tileset) ts.rootTile fs).tiles ts.rootTile =
      { { ts.tiles ts.rootTile with
        _distanceToCamera := (ts.tiles ts.rootTile).distanceToTile,
        _centerZDepth := (ts.tiles ts.rootTile).distanceToTileCenter,
        _screenSpaceError := storedScreenSpaceError ts ts.rootTile fs,
        _visibilityPlaneMask := (ts.tiles ts.rootTile).visibilityFn MASK_INDETERMINATE,
        _touchedFrame := fs.frameNumber } with
        _visitedFrame := fs.frameNumber, selected := false,
        _finalResolution := false, _ancestorWithContentAvailable := none } := by
    simp only [visitTile_char _ _ _ hv5R hp5R, setTile_tiles_self, htile5Ra]
  have hV1c1 : (visitTile ({ stampTouched (touch (updateTile (updateTile (updateTile (resetFrameCollections ts) ts.rootTile fs).1 c1 fs).1 c2 fs).1 ts.rootTile fs) ts.rootTile fs with
          _skipLevelOfDetail := false } : Tileset) ts.rootTile fs).tiles c1 = ({ stampTouched (touch (updateTile (updateTile (updateTile (resetFrameCollections ts) ts.rootTile fs).1 c1 fs).1 c2 fs).1 ts.rootTile fs) ts.rootTile fs with
          _skipLevelOfDetail := false } : Tileset).tiles c1 :=
    visitTile_tiles_other _ _ _ _ hc1R
  have hV1c2 : (visitTile ({ stampTouched (touch (updateTile (updateTile (updateTile (resetFrameCollections ts) ts.rootTile fs).1 c1 fs).1 c2 fs).1 ts.rootTile fs) ts.rootTile fs with
          _skipLevelOfDetail := false } : Tileset) ts.rootTile fs).tiles c2 = ({ stampTouched (touch (updateTile (updateTile (updateTile (resetFrameCollections ts) ts.rootTile fs).1 c1 fs).1 c2 fs).1 ts.rootTile fs) ts.rootTile fs with
          _skipLevelOfDetail := false } : Tileset).tiles c2 :=
    visitTile_tiles_other _ _ _ _ hc2R
  have htc1s : ((visitTile ({ stampTouched (touch (updateTile (updateTile (updateTile (resetFrameCollections ts) ts.rootTile fs).1 c1 fs).1 c2 fs).1 ts.rootTile fs) ts.rootTile fs with
          _skipLevelOfDetail := false } : Tileset) ts.rootTile fs).tiles c1)._touchedFrame ≠ fs.frameNumber := by
    rw [hV1c1, htile5c1]; exact htf1
  have hm1s : ((visitTile ({ stampTouched (touch (updateTile (updateTile (updateTile (resetFrameCollections ts) ts.rootTile fs).1 c1 fs).1 c2 fs).1 ts.rootTile fs) ts.rootTile fs with
          _skipLevelOfDetail := false } : Tileset) ts.rootTile fs).tiles c1)._visibilityPlaneMask ≠ MASK_OUTSIDE := by
    rw [hV1c1, htile5c1]; exact hvis1
  have hch1s : ((visitTile ({ stampTouched (touch (updateTile (updateTile (updateTile (resetFrameCollections ts) ts.rootTile fs).1 c1 fs).1 c2 fs).1 ts.rootTile fs) ts.rootTile fs with
          _skipLevelOfDetail := false } : Tileset) ts.rootTile fs).tiles c1).children = [] := by
    rw [hV1c1, htile5c1]; exact hch1
  have hhe1s : ((visitTile ({ stampTouched (touch (updateTile (updateTile (updateTile (resetFrameCollections ts) ts.rootTile fs).1 c1 fs).1 c2 fs).1 ts.rootTile fs) ts.rootTile fs with
          _skipLevelOfDetail := false } : Tileset) ts.rootTile fs).tiles c1).hasEmptyContent = false := by
    rw [hV1c1, htile5c1]; exact hhe1
  have hht1s : ((visitTile ({ stampTouched (touch (updateTile (updateTile (updateTile (resetFrameCollections ts) ts.rootTile fs).1 c1 fs).1 c2 fs).1 ts.rootTile fs) ts.rootTile fs with
          _skipLevelOfDetail := false } : Tileset) ts.rootTile fs).tiles c1).hasTilesetContent = false := by
    rw [hV1c1, htile5c1]; exact hht1
  have hp1s : ((visitTile ({ stampTouched (touch (updateTile (updateTile (updateTile (resetFrameCollections ts) ts.rootTile fs).1 c1 fs).1 c2 fs).1 ts.rootTile fs) ts.rootTile fs with
          _skipLevelOfDetail := false } : Tileset) ts.rootTile fs).tiles c1).parent = some ts.rootTile := by
    rw [hV1c1, htile5c1]; exact hp1
  have hrp1s : ((visitTile ({ stampTouched (touch (updateTile (updateTile (updateTile (resetFrameCollections ts) ts.rootTile fs).1 c1 fs).1 c2 fs).1 ts.rootTile fs) ts.rootTile fs with
          _skipLevelOfDetail := false } : Tileset) ts.rootTile fs).tiles ts.rootTile).refine = Refine.REPLACE := by
    rw [hV1R]; exact hrfR
  have hcsV1c1 : ((visitTile ({ stampTouched (touch (updateTile (updateTile (updateTile (resetFrameCollections ts) ts.rootTile fs).1 c1 fs).1 c2 fs).1 ts.rootTile fs) ts.rootTile fs with
          _skipLevelOfDetail := false } : Tileset) ts.rootTile fs).tiles c1).contentState = ContentState.AVAILABLE := by
    rw [hV1c1, htile5c1]; exact hca1
  have hW1c2 : (stampTouched (touch (loadTile (visitTile ({ stampTouched (touch (updateTile (updateTile (updateTile (resetFrameCollections ts) ts.rootTile fs).1 c1 fs).1 c2 fs).1 ts.rootTile fs) ts.rootTile fs with
          _skipLevelOfDetail := false } : Tileset) ts.rootTile fs) c1 fs) c1 fs) c1 fs).tiles c2 = ({ stampTouched (touch (updateTile (updateTile (updateTile (resetFrameCollections ts) ts.rootTile fs).1 c1 fs).1 c2 fs).1 ts.rootTile fs) ts.rootTile fs with
          _skipLevelOfDetail := false } : Tileset).tiles c2 := by
    rw [stamp_touch_tiles_other _ _ _ _ (Ne.symm hc12),
      loadTile_tiles_other _ _ _ _ (Ne.symm hc12), hV1c2]
  have hW1R : (stampTouched (touch (loadTile (visitTile ({ stampTouched (touch (updateTile (updateTile (updateTile (resetFrameCollections ts) ts.rootTile fs).1 c1 fs).1 c2 fs).1 ts.rootTile fs) ts.rootTile fs with
          _skipLevelOfDetail := false } : Tileset) ts.rootTile fs) c1 fs) c1 fs) c1 fs).tiles ts.rootTile = (visitTile ({ stampTouched (touch (updateTile (updateTile (updateTile (resetFrameCollections ts) ts.rootTile fs).1 c1 fs).1 c2 fs).1 ts.rootTile fs) ts.rootTile fs with
          _skipLevelOfDetail := false } : Tileset) ts.rootTile fs).tiles ts.rootTile := by
    rw [stamp_touch_tiles_other _ _ _ _ (Ne.symm hc1R),
      loadTile_tiles_other _ _ _ _ (Ne.symm hc1R)]
  have htc2s : ((stampTouched (touch (loadTile (visitTile ({ stampTouched (touch (updateTile (updateTile (updateTile (resetFrameCollections ts) ts.rootTile fs).1 c1 fs).1 c2 fs).1 ts.rootTile fs) ts.rootTile fs with
          _skipLevelOfDetail := false } : Tileset) ts.rootTile fs) c1 fs) c1 fs) c1 fs).tiles c2)._touchedFrame ≠ fs.frameNumber := by
    rw [hW1c2, htile5c2]; exact htf2
  have hm2s : ((stampTouched (touch (loadTile (visitTile ({ stampTouched (touch (updateTile (updateTile (updateTile (resetFrameCollections ts) ts.rootTile fs).1 c1 fs).1 c2 fs).1 ts.rootTile fs) ts.rootTile fs with
          _skipLevelOfDetail := false } : Tileset) ts.rootTile fs) c1 fs) c1 fs) c1 fs).tiles c2)._visibilityPlaneMask ≠ MASK_OUTSIDE := by
    rw [hW1c2, htile5c2]; exact hvis2
  have hch2s : ((stampTouched (touch (loadTile (visitTile ({ stampTouched (touch (updateTile (updateTile (updateTile (resetFrameCollections ts) ts.rootTile fs).1 c1 fs).1 c2 fs).1 ts.rootTile fs) ts.rootTile fs with
          _skipLevelOfDetail := false } : Tileset) ts.rootTile fs) c1 fs) c1 fs) c1 fs).tiles c2).children = [] := by
    rw [hW1c2, htile5c2]; exact hch2
  have hhe2s : ((stampTouched (touch (loadTile (visitTile ({ stampTouched (touch (updateTile (updateTile (updateTile (resetFrameCollections ts) ts.rootTile fs).1 c1 fs).1 c2 fs).1 ts.rootTile fs) ts.rootTile fs with
          _skipLevelOfDetail := false } : Tileset) ts.rootTile fs) c1 fs) c1 fs) c1 fs).tiles c2).hasEmptyContent = false := by
    rw [hW1c2, htile5c2]; exact hhe2
  have hht2s : ((stampTouched (touch (loadTile (visitTile ({ stampTouched (touch (updateTile (updateTile (updateTile (resetFrameCollections ts) ts.rootTile fs).1 c1 fs).1 c2 fs).1 ts.rootTile fs) ts.rootTile fs with
          _skipLevelOfDetail := false } : Tileset) ts.rootTile fs) c1 fs) c1 fs) c1 fs).tiles c2).hasTilesetContent = false := by
    rw [hW1c2, htile5c2]; exact hht2
  have hp2s : ((stampTouched (touch (loadTile (visitTile ({ stampTouched (touch (updateTile (updateTile (updateTile (resetFrameCollections ts) ts.rootTile fs).1 c1 fs).1 c2 fs).1 ts.rootTile fs) ts.rootTile fs with
          _skipLevelOfDetail := false } : Tileset) ts.rootTile fs) c1 fs) c1 fs) c1 fs).tiles c2).parent = some ts.rootTile := by
    rw [hW1c2, htile5c2]; exact hp2
  have hrp2s : ((stampTouched (touch (loadTile (visitTile ({ stampTouched (touch (updateTile (updateTile (updateTile (resetFrameCollections ts) ts.rootTile fs).1 c1 fs).1 c2 fs).1 ts.rootTile fs) ts.rootTile fs with
          _skipLevelOfDetail := false } : Tileset) ts.rootTile fs) c1 fs) c1 fs) c1 fs).tiles ts.rootTile).refine = Refine.REPLACE := by
    rw [hW1R, hV1R]; exact hrfR
  have hcsW1c2 : ((stampTouched (touch (loadTile (visitTile ({ stampTouched (touch (updateTile (updateTile (updateTile (resetFrameCollections ts) ts.rootTile fs).1 c1 fs).1 c2 fs).1 ts.rootTile fs) ts.rootTile fs with
          _skipLevelOfDetail := false } : Tileset) ts.rootTile fs) c1 fs) c1 fs) c1 fs).tiles c2).contentState = ContentState.UNLOADED := by
    rw [hW1c2, htile5c2]; exact hcs2
  have hY0c2 : (setTile (stampTouched (touch (loadTile (stampTouched (touch (loadTile (visitTile ({ stampTouched (touch (updateTile (updateTile (updateTile (resetFrameCollections ts) ts.rootTile fs).1 c1 fs).1 c2 fs).1 ts.rootTile fs) ts.rootTile fs with
          _skipLevelOfDetail := false } : Tileset) ts.rootTile fs) c1 fs) c1 fs) c1 fs) c2 fs) c2 fs) c2 fs) ts.rootTile (fun u => { u with _refines := false })).tiles c2 =
      { (loadTile (stampTouched (touch (loadTile (visitTile ({ stampTouched (touch (updateTile (updateTile (updateTile (resetFrameCollections ts) ts.rootTile fs).1 c1 fs).1 c2 fs).1 ts.rootTile fs) ts.rootTile fs with
          _skipLevelOfDetail := false } : Tileset) ts.rootTile fs) c1 fs) c1 fs) c1 fs) c2 fs).tiles c2 with _touchedFrame := fs.frameNumber } := by
    rw [setTile_tiles_other _ _ _ _ hc2R, stamp_touch_tiles_self]
  have hvY0c2 : ((setTile (stampTouched (touch (loadTile (stampTouched (touch (loadTile (visitTile ({ stampTouched (touch (updateTile (updateTile (updateTile (resetFrameCollections ts) ts.rootTile fs).1 c1 fs).1 c2 fs).1 ts.rootTile fs) ts.rootTile fs with
          _skipLevelOfDetail := false } : Tileset) ts.rootTile fs) c1 fs) c1 fs) c1 fs) c2 fs) c2 fs) c2 fs) ts.rootTile (fun u => { u with _refines := false })).tiles c2)._visitedFrame ≠ fs.frameNumber := by
    rw [hY0c2]
    show ((loadTile (stampTouched (touch (loadTile (visitTile ({ stampTouched (touch (updateTile (updateTile (updateTile (resetFrameCollections ts) ts.rootTile fs).1 c1 fs).1 c2 fs).1 ts.rootTile fs) ts.rootTile fs with
          _skipLevelOfDetail := false } : Tileset) ts.rootTile fs) c1 fs) c1 fs) c1 fs) c2 fs).tiles c2)._visitedFrame ≠ fs.frameNumber
    rw [(loadTile_tiles_fields _ c2 fs).2.2.2.2.2.2.1, hW1c2, htile5c2]
    exact hvf2
  have hpY0c2 : ((setTile (stampTouched (touch (loadTile (stampTouched (touch (loadTile (visitTile ({ stampTouched (touch (updateTile (updateTile (updateTile (resetFrameCollections ts) ts.rootTile fs).1 c1 fs).1 c2 fs).1 ts.rootTile fs) ts.rootTile fs with
          _skipLevelOfDetail := false } : Tileset) ts.rootTile fs) c1 fs) c1 fs) c1 fs) c2 fs) c2 fs) c2 fs) ts.rootTile (fun u => { u with _refines := false })).tiles c2).parent = some ts.rootTile := by
    rw [hY0c2]
    show ((loadTile (stampTouched (touch (loadTile (visitTile ({ stampTouched (touch (updateTile (updateTile (updateTile (resetFrameCollections ts) ts.rootTile fs).1 c1 fs).1 c2 fs).1 ts.rootTile fs) ts.rootTile fs with
          _skipLevelOfDetail := false } : Tileset) ts.rootTile fs) c1 fs) c1 fs) c1 fs) c2 fs).tiles c2).parent = some ts.rootTile
    rw [(loadTile_tiles_fields _ c2 fs).2.2.2.1, hW1c2, htile5c2]
    exact hp2
  have hrfY0c2 : ((setTile (stampTouched (touch (loadTile (stampTouched (touch (loadTile (visitTile ({ stampTouched (touch (updateTile (updateTile (updateTile (resetFrameCollections ts) ts.rootTile fs).1 c1 fs).1 c2 fs).1 ts.rootTile fs) ts.rootTile fs with
          _skipLevelOfDetail := false } : Tileset) ts.rootTile fs) c1 fs) c1 fs) c1 fs) c2 fs) c2 fs) c2 fs) ts.rootTile (fun u => { u with _refines := false })).tiles c2).refine = Refine.REPLACE := by
    rw [hY0c2]
    show ((loadTile (stampTouched (touch (loadTile (visitTile ({ stampTouched (touch (updateTile (updateTile (updateTile (resetFrameCollections ts) ts.rootTile fs).1 c1 fs).1 c2 fs).1 ts.rootTile fs) ts.rootTile fs with
          _skipLevelOfDetail := false } : Tileset) ts.rootTile fs) c1 fs) c1 fs) c1 fs) c2 fs).tiles c2).refine = Refine.REPLACE
    rw [(loadTile_tiles_fields _ c2 fs).2.2.2.2.2.1, hW1c2, htile5c2]
    exact hrf2
  have hchY0c2 : ((setTile (stampTouched (touch (loadTile (stampTouched (touch (loadTile (visitTile ({ stampTouched (touch (updateTile (updateTile (updateTile (resetFrameCollections ts) ts.rootTile fs).1 c1 fs).1 c2 fs).1 ts.rootTile fs) ts.rootTile fs with
          _skipLevelOfDetail := false } : Tileset) ts.rootTile fs) c1 fs) c1 fs) c1 fs) c2 fs) c2 fs) c2 fs) ts.rootTile (fun u => { u with _refines := false })).tiles c2).children = [] := by
    rw [hY0c2]
    show ((loadTile (stampTouched (touch (loadTile (visitTile ({ stampTouched (touch (updateTile (updateTile (updateTile (resetFrameCollections ts) ts.rootTile fs).1 c1 fs).1 c2 fs).1 ts.rootTile fs) ts.rootTile fs with
          _skipLevelOfDetail := false } : Tileset) ts.rootTile fs) c1 fs) c1 fs) c1 fs) c2 fs).tiles c2).children = []
    rw [(loadTile_tiles_fields _ c2 fs).2.2.2.2.1, hW1c2, htile5c2]
    exact hch2
  have hprY0 : ((setTile (stampTouched (touch (loadTile (stampTouched (touch (loadTile (visitTile ({ stampTouched (touch (updateTile (updateTile (updateTile (resetFrameCollections ts) ts.rootTile fs).1 c1 fs).1 c2 fs).1 ts.rootTile fs) ts.rootTile fs with
          _skipLevelOfDetail := false } : Tileset) ts.rootTile fs) c1 fs) c1 fs) c1 fs) c2 fs) c2 fs) c2 fs) ts.rootTile (fun u => { u with _refines := false })).tiles ts.rootTile)._refines = false := by
    rw [setTile_tiles_self]
  have hY1c1 : (setTile (visitTile (setTile (stampTouched (touch (loadTile (stampTouched (touch (loadTile (visitTile ({ stampTouched (touch (updateTile (updateTile (updateTile (resetFrameCollections ts) ts.rootTile fs).1 c1 fs).1 c2 fs).1 ts.rootTile fs) ts.rootTile fs with
          _skipLevelOfDetail := false } : Tileset) ts.rootTile fs) c1 fs) c1 fs) c1 fs) c2 fs) c2 fs) c2 fs) ts.rootTile (fun u => { u with _refines := false })) c2 fs) c2 (fun u => { u with _refines := false })).tiles c1 =
      { (loadTile (visitTile ({ stampTouched (touch (updateTile (updateTile (updateTile (resetFrameCollections ts) ts.rootTile fs).1 c1 fs).1 c2 fs).1 ts.rootTile fs) ts.rootTile fs with
          _skipLevelOfDetail := false } : Tileset) ts.rootTile fs) c1 fs).tiles c1 with _touchedFrame := fs.frameNumber } := by
    rw [setTile_tiles_other _ _ _ _ hc12, visitTile_tiles_other _ _ _ _ hc12,
      setTile_tiles_other _ _ _ _ hc1R, stamp_touch_tiles_other _ _ _ _ hc12,
      loadTile_tiles_other _ _ _ _ hc12, stamp_touch_tiles_self]
  have hvY1c1 : ((setTile (visitTile (setTile (stampTouched (touch (loadTile (stampTouched (touch (loadTile (visitTile ({ stampTouched (touch (updateTile (updateTile (updateTile (resetFrameCollections ts) ts.rootTile fs).1 c1 fs).1 c2 fs).1 ts.rootTile fs) ts.rootTile fs with
          _skipLevelOfDetail := false } : Tileset) ts.rootTile fs) c1 fs) c1 fs) c1 fs) c2 fs) c2 fs) c2 fs) ts.rootTile (fun u => { u with _refines := false })) c2 fs) c2 (fun u => { u with _refines := false })).tiles c1)._visitedFrame ≠ fs.frameNumber := by
    rw [hY1c1]
    show ((loadTile (visitTile ({ stampTouched (touch (updateTile (updateTile (updateTile (resetFrameCollections ts) ts.rootTile fs).1 c1 fs).1 c2 fs).1 ts.rootTile fs) ts.rootTile fs with
          _skipLevelOfDetail := false } : Tileset) ts.rootTile fs) c1 fs).tiles c1)._visitedFrame ≠ fs.frameNumber
    rw [(loadTile_tiles_fields _ c1 fs).2.2.2.2.2.2.1, hV1c1, htile5c1]
    exact hvf1
  have hpY1c1 : ((setTile (visitTile (setTile (stampTouched (touch (loadTile (stampTouched (touch (loadTile (visitTile ({ stampTouched (touch (updateTile (updateTile (updateTile (resetFrameCollections ts) ts.rootTile fs).1 c1 fs).1 c2 fs).1 ts.rootTile fs) ts.rootTile fs with
          _skipLevelOfDetail := false } : Tileset) ts.rootTile fs) c1 fs) c1 fs) c1 fs) c2 fs) c2 fs) c2 fs) ts.rootTile (fun u => { u with _refines := false })) c2 fs) c2 (fun u => { u with _refines := false })).tiles c1).parent = some ts.rootTile := by
    rw [hY1c1]
    show ((loadTile (visitTile ({ stampTouched (touch (updateTile (updateTile (updateTile (resetFrameCollections ts) ts.rootTile fs).1 c1 fs).1 c2 fs).1 ts.rootTile fs) ts.rootTile fs with
          _skipLevelOfDetail := false } : Tileset) ts.rootTile fs) c1 fs).tiles c1).parent = some ts.rootTile
    rw [(loadTile_tiles_fields _ c1 fs).2.2.2.1, hV1c1, htile5c1]
    exact hp1
  have hrfY1c1 : ((setTile (visitTile (setTile (stampTouched (touch (loadTile (stampTouched (touch (loadTile (visitTile ({ stampTouched (touch (updateTile (updateTile (updateTile (resetFrameCollections ts) ts.rootTile fs).1 c1 fs).1 c2 fs).1 ts.rootTile fs) ts.rootTile fs with
          _skipLevelOfDetail := false } : Tileset) ts.rootTile fs) c1 fs) c1 fs) c1 fs) c2 fs) c2 fs) c2 fs) ts.rootTile (fun u => { u with _refines := false })) c2 fs) c2 (fun u => { u with _refines := false })).tiles c1).refine = Refine.REPLACE := by
    rw [hY1c1]
    show ((loadTile (visitTile ({ stampTouched (touch (updateTile (updateTile (updateTile (resetFrameCollections ts) ts.rootTile fs).1 c1 fs).1 c2 fs).1 ts.rootTile fs) ts.rootTile fs with
          _skipLevelOfDetail := false } : Tileset) ts.rootTile fs) c1 fs).tiles c1).refine = Refine.REPLACE
    rw [(loadTile_tiles_fields _ c1 fs).2.2.2.2.2.1, hV1c1, htile5c1]
    exact hrf1
  have hchY1c1 : ((setTile (visitTile (setTile (stampTouched (touch (loadTile (stampTouched (touch (loadTile (visitTile ({ stampTouched (touch (updateTile (updateTile (updateTile (resetFrameCollections ts) ts.rootTile fs).1 c1 fs).1 c2 fs).1 ts.rootTile fs) ts.rootTile fs with
          _skipLevelOfDetail := false } : Tileset) ts.rootTile fs) c1 fs) c1 fs) c1 fs) c2 fs) c2 fs) c2 fs) ts.rootTile (fun u => { u with _refines := false })) c2 fs) c2 (fun u => { u with _refines := false })).tiles c1).children = [] := by
    rw [hY1c1]
    show ((loadTile (visitTile ({ stampTouched (touch (updateTile (updateTile (updateTile (resetFrameCollections ts) ts.rootTile fs).1 c1 fs).1 c2 fs).1 ts.rootTile fs) ts.rootTile fs with
          _skipLevelOfDetail := false } : Tileset) ts.rootTile fs) c1 fs).tiles c1).children = []
    rw [(loadTile_tiles_fields _ c1 fs).2.2.2.2.1, hV1c1, htile5c1]
    exact hch1
  have hprY1 : ((setTile (visitTile (setTile (stampTouched (touch (loadTile (stampTouched (touch (loadTile (visitTile ({ stampTouched (touch (updateTile (updateTile (updateTile (resetFrameCollections ts) ts.rootTile fs).1 c1 fs).1 c2 fs).1 ts.rootTile fs) ts.rootTile fs with
          _skipLevelOfDetail := false } : Tileset) ts.rootTile fs) c1 fs) c1 fs) c1 fs) c2 fs) c2 fs) c2 fs) ts.rootTile (fun u => { u with _refines := false })) c2 fs) c2 (fun u => { u with _refines := false })).tiles ts.rootTile)._refines = false := by
    rw [setTile_tiles_other _ _ _ _ (Ne.symm hc2R),
      visitTile_tiles_other _ _ _ _ (Ne.symm hc2R), setTile_tiles_self]
  have hdesY2sel : (selectTile (setTile (visitTile (setTile (visitTile (setTile (stampTouched (touch (loadTile (stampTouched (touch (loadTile (visitTile ({ stampTouched (touch (updateTile (updateTile (updateTile (resetFrameCollections ts) ts.rootTile fs).1 c1 fs).1 c2 fs).1 ts.rootTile fs) ts.rootTile fs with
          _skipLevelOfDetail := false } : Tileset) ts.rootTile fs) c1 fs) c1 fs) c1 fs) c2 fs) c2 fs) c2 fs) ts.rootTile (fun u => { u with _refines := false })) c2 fs) c2 (fun u => { u with _refines := false })) c1 fs) c1 (fun u => { u with _refines := false })) ts.rootTile fs)._desiredTiles = [] := by
    rw [selectTile_desiredTiles, setTile_desiredTiles, visitTile_desiredTiles,
      setTile_desiredTiles, visitTile_desiredTiles, setTile_desiredTiles,
      stampTouched_desiredTiles, touch_desiredTiles, loadTile_desiredTiles,
      stampTouched_desiredTiles, touch_desiredTiles, loadTile_desiredTiles,
      visitTile_desiredTiles]
    exact hdes5
  obtain ⟨k, rfl⟩ : ∃ k, fuel = k + 1 + 1 + 1 := ⟨fuel - 3, by omega⟩
  have hrun : selectTiles ts fs (k + 1 + 1 + 1) =
      selectTile (setTile (visitTile (setTile (visitTile (setTile (stampTouched (touch (loadTile (stampTouched (touch (loadTile (visitTile ({ stampTouched (touch (updateTile (updateTile (updateTile (resetFrameCollections ts) ts.rootTile fs).1 c1 fs).1 c2 fs).1 ts.rootTile fs) ts.rootTile fs with
          _skipLevelOfDetail := false } : Tileset) ts.rootTile fs) c1 fs) c1 fs) c1 fs) c2 fs) c2 fs) c2 fs) ts.rootTile (fun u => { u with _refines := false })) c2 fs) c2 (fun u => { u with _refines := false })) c1 fs) c1 (fun u => { u with _refines := false })) ts.rootTile fs := by
    rw [hfullG]
    unfold selectBaseTraversal executeBaseTraversal
    dsimp only
    simp only [executeBaseTraversalLoop]
    rw [baseStep_replace_two _ _ _ _ _ c1 c2 _ _ _ hv5R hp5R hrf5R hca5R hch5R htr5]
    dsimp only
    rw [childStep_replace_leaf _ _ _ _ _ _ _ c1 ts.rootTile htc1s hm1s hch1s hhe1s
      hht1s hp1s hrp1s]
    rw [childStep_replace_leaf _ _ _ _ _ _ _ c2 ts.rootTile htc2s hm2s hch2s hhe2s
      hht2s hp2s hrp2s]
    simp only [hcsV1c1, hcsW1c2,
      show (ContentState.AVAILABLE == ContentState.AVAILABLE) = true from rfl,
      show (ContentState.UNLOADED == ContentState.AVAILABLE) = false from rfl,
      Bool.and_true, Bool.and_false, Bool.not_false, if_true, List.nil_append]
    simp only [executeBaseTraversalLoop]
    rw [baseStep_leaf_no_collect _ _ _ _ c2 ts.rootTile _ _ _ hvY0c2 hpY0c2
      (Ne.symm hc2R) hrfY0c2 hchY0c2 hprY0]
    dsimp only
    simp only [executeBaseTraversalLoop]
    rw [baseStep_leaf_no_collect _ _ _ _ c1 ts.rootTile _ _ _ hvY1c1 hpY1c1
      (Ne.symm hc1R) hrfY1c1 hchY1c1 hprY1]
    dsimp only
    rw [baseLoop_nil]
    dsimp only
    simp only [List.foldl_cons, List.foldl_nil]
    rw [hdesY2sel]
    simp only [List.foldl_nil]
  have hW2R : (stampTouched (touch (loadTile (stampTouched (touch (loadTile (visitTile ({ stampTouched (touch (updateTile (updateTile (updateTile (resetFrameCollections ts) ts.rootTile fs).1 c1 fs).1 c2 fs).1 ts.rootTile fs) ts.rootTile fs with
          _skipLevelOfDetail := false } : Tileset) ts.rootTile fs) c1 fs) c1 fs) c1 fs) c2 fs) c2 fs) c2 fs).tiles ts.rootTile = (visitTile ({ stampTouched (touch (updateTile (updateTile (updateTile (resetFrameCollections ts) ts.rootTile fs).1 c1 fs).1 c2 fs).1 ts.rootTile fs) ts.rootTile fs with
          _skipLevelOfDetail := false } : Tileset) ts.rootTile fs).tiles ts.rootTile := by
    rw [stamp_touch_tiles_other _ _ _ _ (Ne.symm hc2R),
      loadTile_tiles_other _ _ _ _ (Ne.symm hc2R), hW1R]
  have hY2Rt : (setTile (visitTile (setTile (visitTile (setTile (stampTouched (touch (loadTile (stampTouched (touch (loadTile (visitTile ({ stampTouched (touch (updateTile (updateTile (updateTile (resetFrameCollections ts) ts.rootTile fs).1 c1 fs).1 c2 fs).1 ts.rootTile fs) ts.rootTile fs with
          _skipLevelOfDetail := false } : Tileset) ts.rootTile fs) c1 fs) c1 fs) c1 fs) c2 fs) c2 fs) c2 fs) ts.rootTile (fun u => { u with _refines := false })) c2 fs) c2 (fun u => { u with _refines := false })) c1 fs) c1 (fun u => { u with _refines := false })).tiles ts.rootTile =
      { (visitTile ({ stampTouched (touch (updateTile (updateTile (updateTile (resetFrameCollections ts) ts.rootTile fs).1 c1 fs).1 c2 fs).1 ts.rootTile fs) ts.rootTile fs with
          _skipLevelOfDetail := false } : Tileset) ts.rootTile fs).tiles ts.rootTile with _refines := false } := by
    rw [setTile_tiles_other _ _ _ _ (Ne.symm hc1R),
      visitTile_tiles_other _ _ _ _ (Ne.symm hc1R),
      setTile_tiles_other _ _ _ _ (Ne.symm hc2R),
      visitTile_tiles_other _ _ _ _ (Ne.symm hc2R),
      setTile_tiles_self, hW2R]
  have hcsY2R : ((setTile (visitTile (setTile (visitTile (setTile (stampTouched (touch (loadTile (stampTouched (touch (loadTile (visitTile ({ stampTouched (touch (updateTile (updateTile (updateTile (resetFrameCollections ts) ts.rootTile fs).1 c1 fs).1 c2 fs).1 ts.rootTile fs) ts.rootTile fs with
          _skipLevelOfDetail := false } : Tileset) ts.rootTile fs) c1 fs) c1 fs) c1 fs) c2 fs) c2 fs) c2 fs) ts.rootTile (fun u => { u with _refines := false })) c2 fs) c2 (fun u => { u with _refines := false })) c1 fs) c1 (fun u => { u with _refines := false })).tiles ts.rootTile).contentState = ContentState.AVAILABLE := by
    rw [hY2Rt]
    show ((visitTile ({ stampTouched (touch (updateTile (updateTile (updateTile (resetFrameCollections ts) ts.rootTile fs).1 c1 fs).1 c2 fs).1 ts.rootTile fs) ts.rootTile fs with
          _skipLevelOfDetail := false } : Tileset) ts.rootTile fs).tiles ts.rootTile).contentState = ContentState.AVAILABLE
    rw [hV1R]
    exact hcaR
  have hcvY2R : ((setTile (visitTile (setTile (visitTile (setTile (stampTouched (touch (loadTile (stampTouched (touch (loadTile (visitTile ({ stampTouched (touch (updateTile (updateTile (updateTile (resetFrameCollections ts) ts.rootTile fs).1 c1 fs).1 c2 fs).1 ts.rootTile fs) ts.rootTile fs with
          _skipLevelOfDetail := false } : Tileset) ts.rootTile fs) c1 fs) c1 fs) c1 fs) c2 fs) c2 fs) c2 fs) ts.rootTile (fun u => { u with _refines := false })) c2 fs) c2 (fun u => { u with _refines := false })) c1 fs) c1 (fun u => { u with _refines := false })).tiles ts.rootTile).contentVisibility ≠ INTERSECT_OUTSIDE := by
    rw [hY2Rt]
    show ((visitTile ({ stampTouched (touch (updateTile (updateTile (updateTile (resetFrameCollections ts) ts.rootTile fs).1 c1 fs).1 c2 fs).1 ts.rootTile fs) ts.rootTile fs with
          _skipLevelOfDetail := false } : Tileset) ts.rootTile fs).tiles ts.rootTile).contentVisibility ≠ INTERSECT_OUTSIDE
    rw [hV1R]
    exact hcvR
  have hguardY2 : (((setTile (visitTile (setTile (visitTile (setTile (stampTouched (touch (loadTile (stampTouched (touch (loadTile (visitTile ({ stampTouched (touch (updateTile (updateTile (updateTile (resetFrameCollections ts) ts.rootTile fs).1 c1 fs).1 c2 fs).1 ts.rootTile fs) ts.rootTile fs with
          _skipLevelOfDetail := false } : Tileset) ts.rootTile fs) c1 fs) c1 fs) c1 fs) c2 fs) c2 fs) c2 fs) ts.rootTile (fun u => { u with _refines := false })) c2 fs) c2 (fun u => { u with _refines := false })) c1 fs) c1 (fun u => { u with _refines := false })).tiles ts.rootTile).contentAvailable &&
      (((setTile (visitTile (setTile (visitTile (setTile (stampTouched (touch (loadTile (stampTouched (touch (loadTile (visitTile ({ stampTouched (touch (updateTile (updateTile (updateTile (resetFrameCollections ts) ts.rootTile fs).1 c1 fs).1 c2 fs).1 ts.rootTile fs) ts.rootTile fs with
          _skipLevelOfDetail := false } : Tileset) ts.rootTile fs) c1 fs) c1 fs) c1 fs) c2 fs) c2 fs) c2 fs) ts.rootTile (fun u => { u with _refines := false })) c2 fs) c2 (fun u => { u with _refines := false })) c1 fs) c1 (fun u => { u with _refines := false })).tiles ts.rootTile)._visibilityPlaneMask == MASK_INSIDE ||
       ((setTile (visitTile (setTile (visitTile (setTile (stampTouched (touch (loadTile (stampTouched (touch (loadTile (visitTile ({ stampTouched (touch (updateTile (updateTile (updateTile (resetFrameCollections ts) ts.rootTile fs).1 c1 fs).1 c2 fs).1 ts.rootTile fs) ts.rootTile fs with
          _skipLevelOfDetail := false } : Tileset) ts.rootTile fs) c1 fs) c1 fs) c1 fs) c2 fs) c2 fs) c2 fs) ts.rootTile (fun u => { u with _refines := false })) c2 fs) c2 (fun u => { u with _refines := false })) c1 fs) c1 (fun u => { u with _refines := false })).tiles ts.rootTile).contentVisibility != INTERSECT_OUTSIDE)) = true := by
    simp [Tile.contentAvailable, hcsY2R, bne_iff_ne.mpr hcvY2R]
  have hselY2list : (setTile (visitTile (setTile (visitTile (setTile (stampTouched (touch (loadTile (stampTouched (touch (loadTile (visitTile ({ stampTouched (touch (updateTile (updateTile (updateTile (resetFrameCollections ts) ts.rootTile fs).1 c1 fs).1 c2 fs).1 ts.rootTile fs) ts.rootTile fs with
          _skipLevelOfDetail := false } : Tileset) ts.rootTile fs) c1 fs) c1 fs) c1 fs) c2 fs) c2 fs) c2 fs) ts.rootTile (fun u => { u with _refines := false })) c2 fs) c2 (fun u => { u with _refines := false })) c1 fs) c1 (fun u => { u with _refines := false }))._selectedTiles = [] := by
    rw [setTile_selectedTiles, visitTile_selectedTiles, setTile_selectedTiles,
      visitTile_selectedTiles, setTile_selectedTiles, stampTouched_selectedTiles,
      touch_selectedTiles, loadTile_selectedTiles, stampTouched_selectedTiles,
      touch_selectedTiles, loadTile_selectedTiles, visitTile_selectedTiles]
    exact hsel5
  have hsel_final : (selectTile (setTile (visitTile (setTile (visitTile (setTile (stampTouched (touch (loadTile (stampTouched (touch (loadTile (visitTile ({ stampTouched (touch (updateTile (updateTile (updateTile (resetFrameCollections ts) ts.rootTile fs).1 c1 fs).1 c2 fs).1 ts.rootTile fs) ts.rootTile fs with
          _skipLevelOfDetail := false } : Tileset) ts.rootTile fs) c1 fs) c1 fs) c1 fs) c2 fs) c2 fs) c2 fs) ts.rootTile (fun u => { u with _refines := false })) c2 fs) c2 (fun u => { u with _refines := false })) c1 fs) c1 (fun u => { u with _refines := false })) ts.rootTile fs)._selectedTiles =
      [ts.rootTile] := by
    rw [selectTile_selected_of_guard _ _ _ hguardY2, hselY2list]
    rfl
  have hmix_final : (selectTile (setTile (visitTile (setTile (visitTile (setTile (stampTouched (touch (loadTile (stampTouched (touch (loadTile (visitTile ({ stampTouched (touch (updateTile (updateTile (updateTile (resetFrameCollections ts) ts.rootTile fs).1 c1 fs).1 c2 fs).1 ts.rootTile fs) ts.rootTile fs with
          _skipLevelOfDetail := false } : Tileset) ts.rootTile fs) c1 fs) c1 fs) c1 fs) c2 fs) c2 fs) c2 fs) ts.rootTile (fun u => { u with _refines := false })) c2 fs) c2 (fun u => { u with _refines := false })) c1 fs) c1 (fun u => { u with _refines := false })) ts.rootTile fs)._hasMixedContent = false := by
    rw [selectTile_hasMixedContent, setTile_hasMixedContent, visitTile_hasMixedContent,
      setTile_hasMixedContent, visitTile_hasMixedContent, setTile_hasMixedContent,
      stampTouched_hasMixedContent, touch_hasMixedContent, loadTile_hasMixedContent,
      stampTouched_hasMixedContent, touch_hasMixedContent, loadTile_hasMixedContent,
      visitTile_hasMixedContent]
    exact hmix5
  refine ⟨?_, ?_, ?_, ?_⟩
  · rw [hrun, hsel_final]
  · rw [hrun, hsel_final]
    simp [hc1R]
  · rw [hrun, hsel_final]
    simp [hc2R]
  · rw [hrun, hmix_final]

/-- Witness for the amended C3 theorem: the concrete three-tile REPLACE tree
`c3ts` (root error 100, budget 16, one AVAILABLE and one UNLOADED child). -/
theorem selectTiles_replace_fallback_witness :
    (c3ts.tiles 1).contentState = ContentState.AVAILABLE ∧
    (c3ts.tiles 2).contentState = ContentState.UNLOADED ∧
    ((selectTiles c3ts fs0 5)._selectedTiles = [c3ts.rootTile] ∧
     1 ∉ (selectTiles c3ts fs0 5)._selectedTiles ∧
     2 ∉ (selectTiles c3ts fs0 5)._selectedTiles ∧
     (selectTiles c3ts fs0 5)._hasMixedContent = false) :=
  ⟨rfl, rfl,
    selectTiles_replace_fallback_parent_only c3ts fs0 5 1 2 rfl (by decide)
      (by decide) (by decide) (by decide) rfl rfl rfl rfl (by decide) rfl rfl
      (by decide) (by decide) (by decide) (by decide) (by decide) rfl rfl rfl
      rfl (by decide) rfl rfl (by decide) (by decide) rfl rfl rfl rfl rfl
      (by decide) rfl rfl (by decide) (by decide) rfl⟩
